import Mathlib

/-!
Verification development for the JBTestSuite test-execution backend.

The definitions below are a shallow embedding of the Python sources:

* `src/server/src/services/test_execution_orchestrator.py`
  (`ExecutionStatus`, `StepType`, `TestStep`, `ExecutionContext`,
  `TestExecutionOrchestrator.queue_test_execution` / `cancel_execution` /
  `get_execution_status` / `_parse_test_steps` / `_execute_test`),
* `src/server/src/selenium/webdriver_manager.py`
  (`WebDriverSession`, `NavigationResult`, `ElementInteractionResult`,
  `WebDriverManager.navigate_to_url` / `find_element_and_interact` /
  `_take_screenshot` / `close_session`),
* `src/server/src/api/websockets.py` (`notify_test_execution_progress`).

Machine integers do not occur on the verified paths; counters and sizes are
`Nat`, percentages are `Rat`.  Timestamps (`datetime.utcnow()`) are passed in
as explicit `Nat` / `String` parameters: the properties under verification do
not depend on clock values.  Effectful collaborator calls (the Selenium
driver, the WebSocket transport, the database) are replaced by explicit
outcome parameters, so every function is a pure, executable Lean definition.
-/

namespace JBTestSuite

/-- `ExecutionStatus` enum of the orchestrator
(`test_execution_orchestrator.py`, lines 28-33). -/
inductive ExecutionStatus
  | queued
  | running
  | completed
  | failed
  | cancelled
deriving DecidableEq, Repr

/-- The terminal-status check used by `cancel_execution`
(`if context.status in [COMPLETED, FAILED, CANCELLED]`, line 140). -/
def ExecutionStatus.isTerminal : ExecutionStatus → Bool
  | .completed => true
  | .failed => true
  | .cancelled => true
  | _ => false

/-- Statuses that the worker loop itself writes as terminal outcomes
(`_execute_test` assigns only `COMPLETED` and `FAILED`). -/
def ExecutionStatus.isWorkerFinal : ExecutionStatus → Bool
  | .completed => true
  | .failed => true
  | _ => false

/-- `StepType` enum of the orchestrator
(`test_execution_orchestrator.py`, lines 35-41). -/
inductive StepType
  | navigate
  | click
  | input
  | wait
  | verify
  | screenshot
deriving DecidableEq, Repr

/-- `TestStep` dataclass (`test_execution_orchestrator.py`, lines 43-54),
with the same field defaults as the Python dataclass. -/
structure TestStep where
  step_number : Nat
  step_type : StepType
  description : String
  selector : Option String := none
  selector_type : String := "css"
  input_text : Option String := none
  expected_text : Option String := none
  url : Option String := none
  wait_seconds : Nat := 0
  timeout_seconds : Nat := 10
deriving DecidableEq, Repr

/-- The decoded form of a stored step's `input_data` column, restricted to
the keys the orchestrator reads (`text`, `url`, `wait_seconds`).  In the
source `input_data` is JSON text decoded with `json.loads` (falling back to
an empty dict when absent or undecodable, lines 520-525); the embedding
takes the decoded dictionary directly, with `none` standing for an absent
key. -/
structure InputDict where
  text : Option String := none
  url : Option String := none
  wait_seconds : Option Nat := none
deriving DecidableEq, Repr

/-- The empty dict `{}` that `_parse_test_steps` substitutes for a missing
`input_data`. -/
def InputDict.empty : InputDict := {}

/-- The fields of the database model `TestStep`
(`models/test_definition.py`, class `TestStep`) that `_parse_test_steps`
reads.  `step_type` is kept as the raw string value of the stored enum,
because the orchestrator dispatches on it through a string-keyed dict. -/
structure DBTestStep where
  order_index : Nat
  step_type : String
  description : Option String := none
  selector : Option String := none
  input_data : Option InputDict := none
  expected_result : Option String := none
  timeout_seconds : Option Nat := none
deriving DecidableEq, Repr

/-- The fields of the database model `TestCase` that
`queue_test_execution` / `_parse_test_steps` read: its id, its name and its
ordered step definitions. -/
structure DBTestCase where
  id : String
  name : String
  steps : List DBTestStep
deriving DecidableEq, Repr

/-- Python's `x or default` for an optional string: `None` and the empty
string are both falsy and select the default. -/
def pyOrStr (x : Option String) (default : String) : String :=
  match x with
  | none => default
  | some s => if s = "" then default else s

/-- Python's `x or default` for an optional number: `None` and `0` are both
falsy and select the default (as in `db_step.timeout_seconds or 10`). -/
def pyOrNat (x : Option Nat) (default : Nat) : Nat :=
  match x with
  | none => default
  | some v => if v = 0 then default else v

/-- The `step_type_mapping` dict of `_parse_test_steps`
(`test_execution_orchestrator.py`, lines 508-515). -/
def step_type_mapping (s : String) : Option StepType :=
  if s = "navigate" then some StepType.navigate
  else if s = "click" then some StepType.click
  else if s = "input" then some StepType.input
  else if s = "wait" then some StepType.wait
  else if s = "verify" then some StepType.verify
  else if s = "screenshot" then some StepType.screenshot
  else none

/-- Conversion of one stored step into an execution `TestStep`
(`_parse_test_steps`, lines 517-539).  Unrecognized `step_type` strings fall
back to `StepType.SCREENSHOT` via `dict.get`'s default. -/
def convert_db_step (db_step : DBTestStep) : TestStep :=
  let step_type := (step_type_mapping db_step.step_type).getD StepType.screenshot
  let input_data := db_step.input_data.getD InputDict.empty
  { step_number := db_step.order_index
    step_type := step_type
    description := pyOrStr db_step.description ("Step " ++ toString db_step.order_index)
    selector := db_step.selector
    selector_type := "css"
    input_text := if step_type = StepType.input then input_data.text else none
    expected_text := db_step.expected_result
    url := if step_type = StepType.navigate then input_data.url else none
    wait_seconds := if step_type = StepType.wait then input_data.wait_seconds.getD 2 else 0
    timeout_seconds := pyOrNat db_step.timeout_seconds 10 }

/-- The 2-step fallback plan substituted for a test case with no defined
steps (`_parse_test_steps`, lines 489-504). -/
def fallback_steps (test_case_name : String) : List TestStep :=
  [ { step_number := 1
      step_type := StepType.navigate
      description := "Navigate to test page for " ++ test_case_name
      url := some ("https://example.com")
      timeout_seconds := 30 },
    { step_number := 2
      step_type := StepType.screenshot
      description := "Take screenshot of page" } ]

/-- Stable insertion of a stored step into a list already sorted by
`order_index`: the new element goes after existing elements with an equal
key, as Python's stable `sorted` keeps equal-keyed elements in encounter
order. -/
def insertStep (a : DBTestStep) : List DBTestStep → List DBTestStep
  | [] => [a]
  | b :: bs =>
    if a.order_index < b.order_index then a :: b :: bs else b :: insertStep a bs

/-- Left fold of `insertStep`: the already-sorted accumulator receives the
remaining stored steps one by one. -/
def sortStepsAux : List DBTestStep → List DBTestStep → List DBTestStep
  | acc, [] => acc
  | acc, a :: rest => sortStepsAux (insertStep a acc) rest

/-- `sorted(test_case.steps, key=lambda s: s.order_index)` of
`_parse_test_steps` (line 507): a stable sort by `order_index`. -/
def sortSteps (l : List DBTestStep) : List DBTestStep :=
  sortStepsAux [] l

/-- `TestExecutionOrchestrator._parse_test_steps`
(`test_execution_orchestrator.py`, lines 485-541): empty step list yields
the fallback plan, otherwise the stored steps are sorted by `order_index`
(Python's stable `sorted`) and converted one by one. -/
def parse_test_steps (test_case : DBTestCase) : List TestStep :=
  match test_case.steps with
  | [] => fallback_steps test_case.name
  | _ => (sortSteps test_case.steps).map convert_db_step

/-! ### Progress notifications (`api/websockets.py`) -/

/-- Rounding half to even (Python 3 `round`) of a rational number to an
integer. -/
def roundHalfEven (q : ℚ) : ℤ :=
  let f : ℤ := ⌊q⌋
  let frac : ℚ := q - (f : ℚ)
  if frac < 1/2 then f
  else if 1/2 < frac then f + 1
  else if f % 2 = 0 then f else f + 1

/-- Python's `round(x, 2)` on the exact rational value of `x`: round half to
even at two decimal places.  (The binary floating-point representation is
abstracted away; the claims under verification are stated against this same
function.) -/
def pyRound2 (q : ℚ) : ℚ :=
  (roundHalfEven (q * 100) : ℚ) / 100

/-- The `progress_percentage` expression of `notify_test_execution_progress`
(`api/websockets.py`, line 318):
`round((step_number / total_steps) * 100, 2) if total_steps > 0 else 0`. -/
def progress_percentage (step_number total_steps : Nat) : ℚ :=
  if 0 < total_steps then
    pyRound2 (((step_number : ℚ) / (total_steps : ℚ)) * 100)
  else 0

/-- The message dict built by `notify_test_execution_progress`
(`api/websockets.py`, lines 308-320), without the wall-clock `timestamp`
field. -/
structure ProgressMessage where
  execution_id : String
  step_number : Nat
  total_steps : Nat
  step_description : String
  screenshot_path : Option String
  progress_percentage : ℚ
deriving DecidableEq, Repr

/-- `notify_test_execution_progress` (`api/websockets.py`, lines 308-325):
the message it sends over the connection manager.  The send itself never
raises: `ConnectionManager.send_personal_message` / `send_to_user` /
`broadcast` swallow every per-connection exception. -/
def build_progress_message (execution_id : String) (step_number total_steps : Nat)
    (step_description : String) (screenshot_path : Option String) : ProgressMessage :=
  { execution_id := execution_id
    step_number := step_number
    total_steps := total_steps
    step_description := step_description
    screenshot_path := screenshot_path
    progress_percentage := progress_percentage step_number total_steps }

/-- The notification events emitted through `api/websockets.py`'s
`notify_test_execution_started` / `_progress` / `_completed` / `_error`
helpers, as observed by the transport (timestamps omitted). -/
inductive NotifEvent
  | started (execution_id test_case_id : String)
  | progress (message : ProgressMessage)
  | completed (execution_id test_case_id : String) (success : Bool) (result_summary : String)
  | error (execution_id test_case_id : String) (error_message : String)
deriving DecidableEq, Repr

/-! ### Execution contexts and the orchestrator's public API -/

/-- `ExecutionContext` dataclass (`test_execution_orchestrator.py`,
lines 56-68).  Timestamps are abstract `Nat` instants.  The `ai_analyses` /
`final_ai_analysis` attributes are set only by the fire-and-forget AI tasks
and are not part of the verified state. -/
structure ExecutionContext where
  execution_id : String
  test_case_id : String
  session_id : Option String := none
  status : ExecutionStatus := ExecutionStatus.queued
  steps : List TestStep := []
  current_step : Nat := 0
  started_at : Option Nat := none
  completed_at : Option Nat := none
  error_message : Option String := none
  screenshots : List String := []
  user_id : Option String := none
deriving DecidableEq, Repr

/-- Lookup in an association list keyed by `String`, the embedding of a
Python dict read `d[k]` / `k in d`. -/
def lookupExec : List (String × ExecutionContext) → String → Option ExecutionContext
  | [], _ => none
  | (k, v) :: rest, key => if k = key then some v else lookupExec rest key

/-- Removal from an association list, the embedding of `del d[k]`. -/
def eraseExec (l : List (String × ExecutionContext)) (key : String) :
    List (String × ExecutionContext) :=
  l.filter (fun p => !(p.1 = key : Bool))

/-- The orchestrator's shared state as seen by its public methods
(`TestExecutionOrchestrator.__init__`): the `active_executions` dict, the
`execution_queue`, plus — for the effects those methods have on
collaborators — the ids of the open WebDriver sessions and the log of
emitted notifications. -/
structure OrchState where
  active_executions : List (String × ExecutionContext) := []
  execution_queue : List String := []
  open_sessions : List String := []
  notifications : List NotifEvent := []
deriving DecidableEq, Repr

/-- The error message recorded by `cancel_execution` (line 145). -/
def cancelledByUserMsg : String := "Execution cancelled by user"

/-- The notification text sent by `cancel_execution` (line 155). -/
def cancelledNotifMsg : String := "Test execution was cancelled"

/-- `TestExecutionOrchestrator.cancel_execution`
(`test_execution_orchestrator.py`, lines 134-162).  Returns the method's
boolean result together with the updated shared state.  The mutated context
(status `CANCELLED`, `completed_at`, `error_message`) is removed from
`active_executions`; its mutations stay visible only through the worker's
aliased reference, which the worker-loop model below tracks. -/
def cancel_execution (st : OrchState) (execution_id : String) (_now : Nat) :
    Bool × OrchState :=
  match lookupExec st.active_executions execution_id with
  | none => (false, st)
  | some context =>
    if context.status.isTerminal then (false, st)
    else
      let open_sessions :=
        match context.session_id with
        | some sid => st.open_sessions.filter (fun s => !(s = sid : Bool))
        | none => st.open_sessions
      (true,
        { active_executions := eraseExec st.active_executions execution_id
          execution_queue := st.execution_queue
          open_sessions := open_sessions
          notifications := st.notifications ++
            [NotifEvent.error execution_id context.test_case_id cancelledNotifMsg] })

/-- The status snapshot dict returned by `get_execution_status`
(`test_execution_orchestrator.py`, lines 170-182), restricted to the fields
of the verified state (`ai_analyses` / `final_ai_analysis` come from the
fire-and-forget AI tasks). -/
structure StatusSnapshot where
  execution_id : String
  test_case_id : String
  status : ExecutionStatus
  current_step : Nat
  total_steps : Nat
  started_at : Option Nat
  completed_at : Option Nat
  error_message : Option String
  screenshots : List String
deriving DecidableEq, Repr

/-- `TestExecutionOrchestrator.get_execution_status`
(`test_execution_orchestrator.py`, lines 164-182): `None` for an unknown
execution id, otherwise a read-only projection of the context. -/
def get_execution_status (st : OrchState) (execution_id : String) :
    Option StatusSnapshot :=
  match lookupExec st.active_executions execution_id with
  | none => none
  | some context =>
    some
      { execution_id := execution_id
        test_case_id := context.test_case_id
        status := context.status
        current_step := context.current_step
        total_steps := context.steps.length
        started_at := context.started_at
        completed_at := context.completed_at
        error_message := context.error_message
        screenshots := context.screenshots }

/-- `TestExecutionOrchestrator.queue_test_execution`
(`test_execution_orchestrator.py`, lines 99-132).  The database load is
embedded as a `store` function from test-case id to the stored test case;
`execution_id` is the freshly generated uuid.  A missing test case raises
`ValueError(f"Test case {test_case_id} not found")`, re-raised by the
`except` block, before any mutation of the shared state. -/
def queue_test_execution (store : String → Option DBTestCase) (st : OrchState)
    (execution_id test_case_id : String) (user_id : Option String) :
    Except String String × OrchState :=
  match store test_case_id with
  | none => (Except.error ("Test case " ++ test_case_id ++ " not found"), st)
  | some test_case =>
    let steps := parse_test_steps test_case
    let context : ExecutionContext :=
      { execution_id := execution_id
        test_case_id := test_case_id
        steps := steps
        user_id := user_id }
    (Except.ok execution_id,
      { st with
        active_executions := st.active_executions ++ [(execution_id, context)]
        execution_queue := st.execution_queue ++ [execution_id] })

/-! ### WebDriver session pool (`selenium/webdriver_manager.py`) -/

/-- `WebDriverSession` dataclass (`webdriver_manager.py`, lines 28-36).
The opaque `driver` handle is omitted; timestamps are abstract `Nat`
instants. -/
structure WebDriverSession where
  session_id : String
  created_at : Nat := 0
  last_used : Nat := 0
  is_busy : Bool := false
  current_url : Option String := none
  screenshot_count : Nat := 0
deriving DecidableEq, Repr

/-- `self.sessions[session_id]` / `session_id in self.sessions` on the
manager's session dict, keyed by the session's own id. -/
def findSession : List WebDriverSession → String → Option WebDriverSession
  | [], _ => none
  | s :: rest, sid => if s.session_id = sid then some s else findSession rest sid

/-- In-place mutation of the session stored under `sid`
(`session.field = ...` on the dict entry). -/
def updateSession (l : List WebDriverSession) (sid : String)
    (f : WebDriverSession → WebDriverSession) : List WebDriverSession :=
  l.map (fun s => if s.session_id = sid then f s else s)

/-- One decimal digit as a character. -/
def digitChar : Nat → Char
  | 0 => '0'
  | 1 => '1'
  | 2 => '2'
  | 3 => '3'
  | 4 => '4'
  | 5 => '5'
  | 6 => '6'
  | 7 => '7'
  | 8 => '8'
  | _ => '9'

/-- Decimal digits of a natural number, most significant first (the digits
of Python's `str(n)` / `format(n, "d")`). -/
def natDigits (n : Nat) : List Char :=
  if h : n < 10 then [digitChar n]
  else
    have : n / 10 < n := Nat.div_lt_self (by omega) (by omega)
    natDigits (n / 10) ++ [digitChar (n % 10)]
termination_by n

/-- Zero padding to a minimum width, as in Python's `format(n, "03d")`. -/
def padChars (width : Nat) (l : List Char) : List Char :=
  List.replicate (width - l.length) '0' ++ l

/-- Python's `f"{n:03d}"`: the decimal digits of `n`, left-padded with
zeros to width 3. -/
def pad3 (n : Nat) : List Char :=
  padChars 3 (natDigits n)

/-- The numeric value of a list of decimal digit characters (used to show
that zero-padded decimal rendering is injective). -/
def digitsVal (l : List Char) : Nat :=
  l.foldl (fun a c => 10 * a + (c.toNat - 48)) 0

/-- The screenshot filename built by `WebDriverManager._take_screenshot`
(`webdriver_manager.py`, line 322):
`f"screenshot_{session_id}_{session.screenshot_count:03d}_{context}_{timestamp}.png"`. -/
def screenshotFilename (session_id : String) (count : Nat)
    (context_tag timestamp : String) : String :=
  "screenshot_" ++ session_id ++ "_" ++ String.mk (pad3 count) ++ "_" ++
    context_tag ++ "_" ++ timestamp ++ ".png"

/-- `self.screenshots_dir / filename` rendered as a string
(`screenshots_dir = Path("artifacts/screenshots")`, line 63). -/
def fullScreenshotPath (session_id : String) (count : Nat)
    (context_tag timestamp : String) : String :=
  "artifacts/screenshots/" ++ screenshotFilename session_id count context_tag timestamp

/-- `WebDriverManager._take_screenshot` (`webdriver_manager.py`,
lines 313-331).  `timestamp` stands for the formatted
`datetime.utcnow()` string and `save_ok` for whether
`driver.save_screenshot` succeeds; on a save failure the exception is
swallowed and `None` returned, but the counter increment has already
happened. -/
def take_screenshot (sessions : List WebDriverSession)
    (session_id context_tag timestamp : String) (save_ok : Bool) :
    Option String × List WebDriverSession :=
  match findSession sessions session_id with
  | none => (none, sessions)
  | some session =>
    let count := session.screenshot_count + 1
    let sessions2 :=
      updateSession sessions session_id
        (fun s => { s with screenshot_count := s.screenshot_count + 1 })
    let filepath := fullScreenshotPath session_id count context_tag timestamp
    if save_ok then (some filepath, sessions2) else (none, sessions2)

/-- `NavigationResult` dataclass (`webdriver_manager.py`, lines 46-52). -/
structure NavigationResult where
  success : Bool
  message : String
  final_url : Option String := none
  load_time_ms : Nat := 0
  screenshot_path : Option String := none
deriving DecidableEq, Repr

/-- Outcome of the driver-level part of `navigate_to_url`
(`driver.get` plus the ready-state wait): success with the page's final URL
and measured load time, `TimeoutException`, `WebDriverException`, or any
other exception. -/
inductive NavOutcome
  | ok (final_url : String) (load_time_ms : Nat)
  | timeout
  | webdriverError (msg : String)
  | otherError (msg : String)
deriving DecidableEq, Repr

/-- `WebDriverManager.navigate_to_url` (`webdriver_manager.py`,
lines 136-188).  All driver exceptions are caught inside the method, so the
embedding is a total function returning a structured `NavigationResult`;
`now` is the `datetime.utcnow()` instant written to `last_used`,
`timestamp` / `save_ok` parameterize the screenshot taken on success. -/
def navigate_to_url (sessions : List WebDriverSession) (session_id url : String)
    (timeout : Nat) (outcome : NavOutcome) (now : Nat)
    (timestamp : String) (save_ok : Bool) :
    NavigationResult × List WebDriverSession :=
  match findSession sessions session_id with
  | none =>
    ({ success := false, message := "Session " ++ session_id ++ " not found" },
      sessions)
  | some _ =>
    match outcome with
    | NavOutcome.ok final_url load_time_ms =>
      let sessions2 :=
        updateSession sessions session_id
          (fun s => { s with current_url := some final_url, last_used := now })
      let (shot, sessions3) :=
        take_screenshot sessions2 session_id ("navigation") timestamp save_ok
      ({ success := true
         message := "Successfully navigated to " ++ url
         final_url := some final_url
         load_time_ms := load_time_ms
         screenshot_path := shot }, sessions3)
    | NavOutcome.timeout =>
      ({ success := false
         message := "Page load timeout after " ++ toString timeout ++ " seconds" },
        sessions)
    | NavOutcome.webdriverError msg =>
      ({ success := false
         message := "WebDriver error during navigation: " ++ msg }, sessions)
    | NavOutcome.otherError msg =>
      ({ success := false, message := "Unexpected error: " ++ msg }, sessions)

/-- `ElementInteractionResult` dataclass (`webdriver_manager.py`,
lines 38-44). -/
structure ElementInteractionResult where
  success : Bool
  message : String
  element_found : Bool := false
  screenshot_path : Option String := none
  execution_time_ms : Nat := 0
deriving DecidableEq, Repr

/-- Keys of the `by_mapping` dict of `find_element_and_interact`
(`webdriver_manager.py`, lines 207-216). -/
def validSelectorTypes : List String :=
  ["css", "xpath", "id", "name", "class", "tag", "link_text", "partial_link_text"]

/-- Outcome of the two element waits of `find_element_and_interact`
(presence, then clickability for click/input/clear): the element was
obtained, or a `TimeoutException` was raised. -/
inductive WaitOutcome
  | found
  | timeout
deriving DecidableEq, Repr

/-- Outcome of performing the action on the located element:
success, `ElementNotInteractableException`, or any other exception. -/
inductive ActionOutcome
  | ok
  | notInteractable
  | actionError (msg : String)
deriving DecidableEq, Repr

/-- The per-action success message of `find_element_and_interact`
(`webdriver_manager.py`, lines 238-264); `elem_text` / `attr_value` stand
for the values the driver returned for `get_text` / `get_attribute`. -/
def interactionSuccessMessage (action selector : String) (text_input : Option String)
    (elem_text attr_value : String) : String :=
  if action = "click" then "Successfully clicked element: " ++ selector
  else if action = "input" then "Successfully input text into element: " ++ selector
  else if action = "clear" then "Successfully cleared element: " ++ selector
  else if action = "get_text" then
    "Successfully retrieved text from element: " ++ selector ++
      " - Text: \x27" ++ elem_text ++ "\x27"
  else
    "Successfully retrieved attribute \x27" ++ (text_input.getD ("value")) ++
      "\x27 from element: " ++ selector ++ " - Value: \x27" ++ attr_value ++ "\x27"

/-- The actions `find_element_and_interact` implements
(`webdriver_manager.py`, lines 238-270); any other string reaches the
`Unsupported action` branch. -/
def supportedActions : List String :=
  ["click", "input", "clear", "get_text", "get_attribute"]

/-- `WebDriverManager.find_element_and_interact` (`webdriver_manager.py`,
lines 190-311).  Control flow of the source: unknown session and invalid
selector type return early without touching the driver; a wait timeout
returns a structured failure after a best-effort screenshot; with the
element found, the `input`-without-text and unsupported-action checks return
early without a screenshot; an `ElementNotInteractableException` or any
other exception from the action returns a structured failure after a
best-effort screenshot; success updates `last_used` and returns with a
screenshot.  Every exception is caught inside the method. -/
def find_element_and_interact (sessions : List WebDriverSession)
    (session_id selector selector_type action : String) (text_input : Option String)
    (timeout : Nat) (waitOut : WaitOutcome) (actOut : ActionOutcome)
    (elem_text attr_value : String) (execution_time_ms : Nat) (now : Nat)
    (timestamp : String) (save_ok : Bool) :
    ElementInteractionResult × List WebDriverSession :=
  match findSession sessions session_id with
  | none =>
    ({ success := false, message := "Session " ++ session_id ++ " not found" },
      sessions)
  | some _ =>
    if ¬ (selector_type ∈ validSelectorTypes) then
      ({ success := false, message := "Invalid selector type: " ++ selector_type },
        sessions)
    else
      match waitOut with
      | WaitOutcome.timeout =>
        let (shot, sessions2) :=
          take_screenshot sessions session_id ("timeout_error") timestamp save_ok
        ({ success := false
           message := "Element not found or not interactable within " ++
             toString timeout ++ " seconds: " ++ selector
           element_found := false
           screenshot_path := shot }, sessions2)
      | WaitOutcome.found =>
        if action = "input" ∧ text_input = none then
          ({ success := false
             message := "Text input is required for \x27input\x27 action" },
            sessions)
        else if ¬ (action ∈ supportedActions) then
          ({ success := false, message := "Unsupported action: " ++ action },
            sessions)
        else
          match actOut with
          | ActionOutcome.notInteractable =>
            let (shot, sessions2) :=
              take_screenshot sessions session_id ("not_interactable_error")
                timestamp save_ok
            ({ success := false
               message := "Element found but not interactable: " ++ selector
               element_found := true
               screenshot_path := shot }, sessions2)
          | ActionOutcome.actionError msg =>
            let (shot, sessions2) :=
              take_screenshot sessions session_id ("interaction_error")
                timestamp save_ok
            ({ success := false
               message := "Error during element interaction: " ++ msg
               screenshot_path := shot }, sessions2)
          | ActionOutcome.ok =>
            let message :=
              interactionSuccessMessage action selector text_input elem_text attr_value
            let sessions2 :=
              updateSession sessions session_id (fun s => { s with last_used := now })
            let (shot, sessions3) :=
              take_screenshot sessions2 session_id ("interaction_" ++ action)
                timestamp save_ok
            ({ success := true
               message := message
               element_found := true
               screenshot_path := shot
               execution_time_ms := execution_time_ms }, sessions3)

/-- A sequence of successive `_take_screenshot` calls on one session (each
with a successful `driver.save_screenshot`), collecting the returned paths:
the "rapid captures" scenario.  Each list element carries the context tag
and the formatted timestamp of one capture. -/
def runCaptures (sessions : List WebDriverSession) (session_id : String) :
    List (String × String) → List String × List WebDriverSession
  | [] => ([], sessions)
  | (tag, ts) :: rest =>
    match take_screenshot sessions session_id tag ts true with
    | (some p, sessions2) =>
      let (ps, sessions3) := runCaptures sessions2 session_id rest
      (p :: ps, sessions3)
    | (none, sessions2) =>
      let (ps, sessions3) := runCaptures sessions2 session_id rest
      (ps, sessions3)

/-- The paths a run of captures produces when the session's counter starts
at `count`: capture `i` of the run carries counter value `count + i + 1`. -/
def capturePaths (session_id : String) (count : Nat) :
    List (String × String) → List String
  | [] => []
  | (tag, ts) :: rest =>
    fullScreenshotPath session_id (count + 1) tag ts ::
      capturePaths session_id (count + 1) rest

/-! ### The worker loop (`_execute_test`) with cooperative cancellation

`asyncio` concurrency is cooperative: a concurrently submitted
`cancel_execution` call can only run while the worker task is suspended at
an `await` expression.  The model below makes those interleavings explicit:
the worker's code between `await`s runs atomically, and at each `await`
expression an environment-driven `cancel_execution` for this execution may
fire.  (Genuine suspension happens at the WebSocket sends, at
`asyncio.sleep` inside `Wait` steps and at the queue wait; allowing a
cancel at every `await` expression of `_execute_test` over-approximates the
reachable schedules and is stated as such.)  The worker holds a direct
reference to the `ExecutionContext`, so mutations made by
`cancel_execution` remain visible to it even after the context has been
removed from `active_executions`; the state below therefore carries the
single context explicitly, together with an `in_active` flag for its
membership in `active_executions`. -/

/-- The `await` expressions of the worker loop and of `_execute_test` at
which a concurrent `cancel_execution` may be scheduled.  `stepCall k` is
the awaited driver call (or `asyncio.sleep`) of step `k`,
`progressNotify k` the progress notification after step `k`,
`failNotify k` the error notification of a failed step `k`. -/
inductive AwaitPoint
  | dequeue
  | notifyStarted
  | stepCall (k : Nat)
  | progressNotify (k : Nat)
  | failNotify (k : Nat)
  | completedNotify
  | excNotify
deriving DecidableEq, Repr

/-- The observable outcome of `_execute_step` for one step
(`test_execution_orchestrator.py`, lines 294-395): whether the step
succeeded, the screenshot path it appended (if any), and the failure
message written to `error_message` when it failed.  `_execute_step`
catches every exception and turns it into a `False` return, so it is
total. -/
structure StepOutcome where
  success : Bool
  screenshot : Option String := none
  message : String := ""
deriving DecidableEq, Repr

/-- One run of `_execute_test`, parameterized by everything the
collaborators decide: the schedule of concurrent cancellations, the result
of `webdriver_manager.create_session()` (`Except.error` = the call raised),
and the per-step outcomes (indexed by 1-based step number). -/
structure RunCfg where
  sched : List AwaitPoint
  create_session : Except String String
  step_outcome : Nat → StepOutcome
  now : Nat

/-- The worker-visible global state during one execution: the aliased
`ExecutionContext`, its membership in `active_executions`, the ids of open
WebDriver sessions, the emitted notifications, the sequence of values the
context's `status` field has taken (most recent last), and whether the
delayed `_cleanup_execution` task has been scheduled. -/
structure GState where
  ctx : ExecutionContext
  in_active : Bool
  open_sessions : List String
  notifications : List NotifEvent
  status_log : List ExecutionStatus
  cleanup_scheduled : Bool
deriving DecidableEq, Repr

/-- Appending an emitted notification. -/
def emit (e : NotifEvent) (s : GState) : GState :=
  { s with notifications := s.notifications ++ [e] }

/-- Writing a new value into `context.status`, recorded in the status
log. -/
def writeStatus (st : ExecutionStatus) (s : GState) : GState :=
  { s with
    ctx := { s.ctx with status := st }
    status_log := s.status_log ++ [st] }

/-- The effect of a concurrent `cancel_execution(execution_id)` call as
seen through the worker's aliased context (`test_execution_orchestrator.py`,
lines 134-162): no-op when the context is no longer in `active_executions`
or is already terminal; otherwise it cancels the context, closes its bound
session, emits the error notification and removes the context from the
active set. -/
def envCancel (now : Nat) (s : GState) : GState :=
  if s.in_active = false then s
  else if s.ctx.status.isTerminal then s
  else
    let s := writeStatus ExecutionStatus.cancelled s
    let s :=
      { s with
        ctx := { s.ctx with
          completed_at := some now
          error_message := some cancelledByUserMsg } }
    let s :=
      match s.ctx.session_id with
      | some sid =>
        { s with open_sessions := s.open_sessions.filter (fun x => !(x = sid : Bool)) }
      | none => s
    let s :=
      emit (NotifEvent.error s.ctx.execution_id s.ctx.test_case_id cancelledNotifMsg) s
    { s with in_active := false }

/-- At an `await` expression: run the scheduled concurrent
`cancel_execution`, if any. -/
def cancelPt (cfg : RunCfg) (p : AwaitPoint) (s : GState) : GState :=
  if p ∈ cfg.sched then envCancel cfg.now s else s

/-- The worker-side mutations `_execute_step` performs on the context for
one step outcome (screenshot append, `error_message` on failure). -/
def applyStepOutcome (o : StepOutcome) (ctx : ExecutionContext) : ExecutionContext :=
  { ctx with
    screenshots := ctx.screenshots ++ o.screenshot.toList
    error_message := if o.success then ctx.error_message else some o.message }

/-- The body of one loop iteration of `_execute_test` after the
cancellation check (`test_execution_orchestrator.py`, lines 227-238): the
awaited step execution (with its possible concurrent cancel), the step
outcome's context mutations, and the awaited progress notification (with
its possible concurrent cancel). -/
def stepBody (cfg : RunCfg) (total : Nat) (step : TestStep) (k : Nat)
    (s : GState) : GState :=
  let s := cancelPt cfg (AwaitPoint.stepCall k) s
  let s := { s with ctx := applyStepOutcome (cfg.step_outcome k) s.ctx }
  let s :=
    emit (NotifEvent.progress
      (build_progress_message s.ctx.execution_id k total step.description
        s.ctx.screenshots.getLast?)) s
  cancelPt cfg (AwaitPoint.progressNotify k) s

/-- The failed-step exit of the loop (`test_execution_orchestrator.py`,
lines 240-250): transition to `FAILED`, record `completed_at`, emit the
error notification (`context.error_message or f"Step {k} failed"`). -/
def stepFailExit (cfg : RunCfg) (k : Nat) (s : GState) : GState :=
  let s := writeStatus ExecutionStatus.failed s
  let s := { s with ctx := { s.ctx with completed_at := some cfg.now } }
  let s :=
    emit (NotifEvent.error s.ctx.execution_id s.ctx.test_case_id
      (pyOrStr s.ctx.error_message ("Step " ++ toString k ++ " failed"))) s
  cancelPt cfg (AwaitPoint.failNotify k) s

/-- The per-step loop of `_execute_test`
(`test_execution_orchestrator.py`, lines 220-250).  `total` is
`len(context.steps)`, `idx` the 0-based index of the first remaining step.
Returns the state together with `true` when the loop ran off the end of
the step list (the all-steps-succeeded continuation follows) and `false`
when the body returned early (cancellation observed at the top of the
loop, or a failed step). -/
def runSteps (cfg : RunCfg) (total : Nat) :
    List TestStep → Nat → GState → GState × Bool
  | [], _, s => (s, true)
  | step :: rest, idx, s =>
    let k := idx + 1
    let s := { s with ctx := { s.ctx with current_step := k } }
    if s.ctx.status = ExecutionStatus.cancelled then (s, false)
    else
      let s := stepBody cfg total step k s
      if (cfg.step_outcome k).success then runSteps cfg total rest k s
      else (stepFailExit cfg k s, false)

/-- The `finally` block of `_execute_test`
(`test_execution_orchestrator.py`, lines 283-292): close the bound session
if any, store results (a log-only stub in the source), and schedule the
delayed removal from `active_executions` (grace period) as a detached
task.  None of its statements suspends the worker before the context
mutations are done, and none touches `status` or `session_id`. -/
def finallyBlock (s : GState) : GState :=
  let s :=
    match s.ctx.session_id with
    | some sid =>
      { s with open_sessions := s.open_sessions.filter (fun x => !(x = sid : Bool)) }
    | none => s
  { s with cleanup_scheduled := true }

/-- The continuation of `_execute_test` after the per-step loop: when the
loop ran off the end of the step list, the all-steps-succeeded transition
(`test_execution_orchestrator.py`, lines 252-265) followed by the
`finally` block; when the loop returned early, the `finally` block
directly. -/
def afterSteps (cfg : RunCfg) (total : Nat) (p : GState × Bool) : GState :=
  if p.2 then
    let s := writeStatus ExecutionStatus.completed p.1
    let s := { s with ctx := { s.ctx with completed_at := some cfg.now } }
    let s :=
      emit (NotifEvent.completed s.ctx.execution_id s.ctx.test_case_id true
        ("Test completed successfully in " ++ toString total ++ " steps")) s
    let s := cancelPt cfg AwaitPoint.completedNotify s
    finallyBlock s
  else finallyBlock p.1

/-- The opening of `_execute_test` (`test_execution_orchestrator.py`,
lines 206-207): transition to `RUNNING` and record `started_at`. -/
def runningStart (cfg : RunCfg) (s : GState) : GState :=
  let s := writeStatus ExecutionStatus.running s
  { s with ctx := { s.ctx with started_at := some cfg.now } }

/-- Successful session acquisition and the started notification
(`test_execution_orchestrator.py`, lines 210-217): bind the new session id,
register the session as open, emit the started notification (a suspension
point where a concurrent cancel may land). -/
def sessionStart (cfg : RunCfg) (sid : String) (s : GState) : GState :=
  let s :=
    { s with ctx := { s.ctx with session_id := some sid }
             open_sessions := s.open_sessions ++ [sid] }
  let s := emit (NotifEvent.started s.ctx.execution_id s.ctx.test_case_id) s
  cancelPt cfg AwaitPoint.notifyStarted s

/-- The `except` handler of `_execute_test`
(`test_execution_orchestrator.py`, lines 267-281): transition to `FAILED`,
record `completed_at` and the exception message, emit the error
notification. -/
def failStart (cfg : RunCfg) (msg : String) (s : GState) : GState :=
  let s := writeStatus ExecutionStatus.failed s
  let s :=
    { s with ctx := { s.ctx with completed_at := some cfg.now,
                                 error_message := some msg } }
  let s := emit (NotifEvent.error s.ctx.execution_id s.ctx.test_case_id msg) s
  cancelPt cfg AwaitPoint.excNotify s

/-- `TestExecutionOrchestrator._execute_test`
(`test_execution_orchestrator.py`, lines 202-292), one execution from the
`RUNNING` transition to the `finally` block. -/
def execute_test (cfg : RunCfg) (s : GState) : GState :=
  let s := runningStart cfg s
  match cfg.create_session with
  | Except.error msg => finallyBlock (failStart cfg msg s)
  | Except.ok sid =>
    let s := sessionStart cfg sid s
    afterSteps cfg s.ctx.steps.length
      (runSteps cfg s.ctx.steps.length s.ctx.steps 0 s)

/-! #### Status-log predicates

The status log records every value the context's `status` field takes.
`NotCF l` says no entry of `l` is one of the worker-written terminal
statuses (`COMPLETED`/`FAILED`); `stickyLog l` says that from the first
`COMPLETED`/`FAILED` entry on, the status never changes again. -/

/-- No entry of the log is `COMPLETED` or `FAILED`. -/
def NotCF (l : List ExecutionStatus) : Prop :=
  ∀ c ∈ l, c.isWorkerFinal = false

/-- Invariant carried through a run: the log so far has no
`COMPLETED`/`FAILED` entry, and neither is the current status. -/
def GoodSt (s : GState) : Prop :=
  NotCF s.status_log ∧ s.ctx.status.isWorkerFinal = false

/-- The state shape after a worker-side `FAILED` transition: the log is a
`COMPLETED`/`FAILED`-free prefix followed by the final `FAILED` entry. -/
def FailedForm (s : GState) : Prop :=
  (∃ l0, NotCF l0 ∧ s.status_log = l0 ++ [ExecutionStatus.failed]) ∧
  s.ctx.status = ExecutionStatus.failed

/-- A complete run's log: a `COMPLETED`/`FAILED`-free prefix, optionally
closed by one final `COMPLETED`/`FAILED` entry. -/
def goodLog (l : List ExecutionStatus) : Prop :=
  ∃ l0, NotCF l0 ∧
    (l = l0 ∨ ∃ c, c.isWorkerFinal = true ∧ l = l0 ++ [c])

/-- Once the status has been `COMPLETED` or `FAILED`, every later recorded
status is that same value. -/
def stickyLog (l : List ExecutionStatus) : Prop :=
  ∀ i j, (hi : i < l.length) → (hj : j < l.length) → i ≤ j →
    l[i].isWorkerFinal = true → l[j] = l[i]

/-- One turn of `_execution_worker` (`test_execution_orchestrator.py`,
lines 184-200) for a queued execution: a concurrent cancel may land while
the worker awaits the queue; the worker then runs `_execute_test` only if
the id is still in `active_executions`. -/
def run_execution (cfg : RunCfg) (s : GState) : GState :=
  let s := cancelPt cfg AwaitPoint.dequeue s
  if s.in_active then execute_test cfg s else s

/-- The state right after `queue_test_execution` created and enqueued the
context (status `QUEUED`, not yet started), from the worker's point of
view. -/
def initialGState (execution_id test_case_id : String) (steps : List TestStep)
    (user_id : Option String) (pool0 : List String) : GState :=
  { ctx :=
      { execution_id := execution_id
        test_case_id := test_case_id
        steps := steps
        user_id := user_id }
    in_active := true
    open_sessions := pool0
    notifications := []
    status_log := [ExecutionStatus.queued]
    cleanup_scheduled := false }

/-! ### Concrete scenarios used by witnesses and counterexamples -/

/-- A one-step plan: navigate to the example page. -/
def demoStep : TestStep :=
  { step_number := 1
    step_type := StepType.navigate
    description := "go"
    url := some ("https://example.com") }

/-- Driver outcomes where every step succeeds without a screenshot. -/
def succOutcome : Nat → StepOutcome := fun _ => { success := true }

/-- A run in which the user cancels while the worker awaits the progress
notification of (what turns out to be) the final step. -/
def cfgCancelAtLastProgress : RunCfg :=
  { sched := [AwaitPoint.progressNotify 1]
    create_session := Except.ok ("sess-1")
    step_outcome := succOutcome
    now := 7 }

/-- A run with no concurrent cancellation and a successful driver. -/
def cfgNoCancel : RunCfg :=
  { sched := []
    create_session := Except.ok ("sess-1")
    step_outcome := succOutcome
    now := 7 }

/-- The freshly queued state of an execution with the one-step plan. -/
def queuedState : GState :=
  initialGState ("exec-1") ("tc-1") [demoStep] none []

/-- A pool holding one fresh session `s1`. -/
def sessionsOne : List WebDriverSession := [{ session_id := "s1" }]

/-- An orchestrator state with a single queued (non-terminal) execution. -/
def orchOne : OrchState :=
  { active_executions :=
      [("exec-1", { execution_id := "exec-1", test_case_id := "tc-1" })] }

/-- A stored test case with no defined steps. -/
def emptyCase : DBTestCase := { id := "tc-6", name := "demo", steps := [] }

/-- A stored step whose `step_type` is the unrecognized kind `custom`. -/
def customStep : DBTestStep := { order_index := 4, step_type := "custom" }

/-- A stored test case containing only the unrecognized step. -/
def customCase : DBTestCase := { id := "tc-9", name := "n", steps := [customStep] }

/-- A test-case store with no test cases at all. -/
def emptyStore : String → Option DBTestCase := fun _ => none

/-- A worker-finalized (Completed) execution state, still in the active
set during the grace period. -/
def doneState : GState :=
  { ctx := { execution_id := "exec-1", test_case_id := "tc-1",
             status := ExecutionStatus.completed }
    in_active := true
    open_sessions := []
    notifications := []
    status_log := [ExecutionStatus.queued, ExecutionStatus.running,
      ExecutionStatus.completed]
    cleanup_scheduled := true }

/-! ## Theorems -/

/-! ### Association-list and sort lemmas -/

theorem lookupExec_eraseExec (l : List (String × ExecutionContext)) (key : String) :
    lookupExec (eraseExec l key) key = none := by
  induction l with
  | nil => rfl
  | cons p rest ih =>
    by_cases h : p.1 = key
    · simpa [eraseExec, List.filter_cons, h] using ih
    · simpa [eraseExec, List.filter_cons, h, lookupExec] using ih

theorem mem_insertStep (a x : DBTestStep) :
    ∀ l, (x ∈ insertStep a l ↔ x = a ∨ x ∈ l) := by
  intro l
  induction l with
  | nil => simp [insertStep]
  | cons b bs ih =>
    simp only [insertStep]
    split
    · simp [List.mem_cons]
    · simp only [List.mem_cons, ih]
      tauto

theorem length_insertStep (a : DBTestStep) :
    ∀ l, (insertStep a l).length = l.length + 1 := by
  intro l
  induction l with
  | nil => rfl
  | cons b bs ih =>
    simp only [insertStep]
    split
    · rfl
    · simp [ih]

theorem mem_sortStepsAux :
    ∀ l acc (x : DBTestStep), x ∈ sortStepsAux acc l ↔ x ∈ acc ∨ x ∈ l := by
  intro l
  induction l with
  | nil => intro acc x; simp [sortStepsAux]
  | cons a rest ih =>
    intro acc x
    simp only [sortStepsAux, ih, mem_insertStep, List.mem_cons]
    tauto

theorem length_sortStepsAux :
    ∀ l acc, (sortStepsAux acc l : List DBTestStep).length = acc.length + l.length := by
  intro l
  induction l with
  | nil => intro acc; rfl
  | cons a rest ih =>
    intro acc
    simp only [sortStepsAux, ih, length_insertStep, List.length_cons]
    omega

theorem mem_sortSteps (x : DBTestStep) (l : List DBTestStep) :
    x ∈ sortSteps l ↔ x ∈ l := by
  simp [sortSteps, mem_sortStepsAux]

theorem length_sortSteps (l : List DBTestStep) :
    (sortSteps l).length = l.length := by
  simp [sortSteps, length_sortStepsAux]

/-! ### `cancel_execution` case lemmas -/

theorem cancel_execution_unknown (st : OrchState) (execution_id : String) (now : Nat)
    (h : lookupExec st.active_executions execution_id = none) :
    cancel_execution st execution_id now = (false, st) := by
  simp [cancel_execution, h]

theorem cancel_execution_of_terminal (st : OrchState) (execution_id : String)
    (now : Nat) (c : ExecutionContext)
    (h : lookupExec st.active_executions execution_id = some c)
    (ht : c.status.isTerminal = true) :
    cancel_execution st execution_id now = (false, st) := by
  simp [cancel_execution, h, ht]

theorem cancel_execution_live (st : OrchState) (execution_id : String) (now : Nat)
    (c : ExecutionContext)
    (h : lookupExec st.active_executions execution_id = some c)
    (ht : c.status.isTerminal = false) :
    (cancel_execution st execution_id now).1 = true ∧
    (cancel_execution st execution_id now).2.active_executions =
      eraseExec st.active_executions execution_id := by
  simp [cancel_execution, h, ht]

/-! ### C5, C6, C7, C3, C9 -/

/-- C5: the `progress_percentage` of every emitted progress notification at
step `k` of `n` equals `round(k / n * 100, 2)` when `n > 0`, and equals `0`
(no division is performed, so no exception and no NaN) when `n = 0`. -/
theorem progress_percentage_formula (execution_id : String) (k n : Nat)
    (desc : String) (shot : Option String) :
    (0 < n →
      (build_progress_message execution_id k n desc shot).progress_percentage =
        pyRound2 (((k : ℚ) / (n : ℚ)) * 100)) ∧
    (n = 0 →
      (build_progress_message execution_id k n desc shot).progress_percentage = 0) := by
  constructor
  · intro h
    simp [build_progress_message, progress_percentage, h]
  · intro h
    subst h
    simp [build_progress_message, progress_percentage]

/-- Witness for `progress_percentage_formula` at `k = 1, n = 3` and at
`n = 0`. -/
theorem progress_percentage_formula_witness :
    (0 < 3 ∧
      (build_progress_message ("e") 1 3 ("d") none).progress_percentage =
        pyRound2 (((1 : Nat) : ℚ) / ((3 : Nat) : ℚ) * 100)) ∧
    ((0 : Nat) = 0 ∧
      (build_progress_message ("e") 1 0 ("d") none).progress_percentage = 0) :=
  ⟨⟨by decide, (progress_percentage_formula ("e") 1 3 ("d") none).1 (by decide)⟩,
    ⟨rfl, (progress_percentage_formula ("e") 1 0 ("d") none).2 rfl⟩⟩

/-- C6: for a test case with zero defined steps the derived plan is exactly
the 2-step fallback — step 1 a Navigate step, step 2 a Screenshot step —
and step derivation is total (it cannot raise: the fallback branch only
constructs the two records). -/
theorem fallback_plan_two_steps (tc : DBTestCase) (h : tc.steps = []) :
    parse_test_steps tc = fallback_steps tc.name ∧
    (parse_test_steps tc).length = 2 ∧
    (parse_test_steps tc).map (fun s => (s.step_number, s.step_type)) =
      [(1, StepType.navigate), (2, StepType.screenshot)] := by
  obtain ⟨i, n, st⟩ := tc
  have h2 : st = [] := h
  subst h2
  exact ⟨rfl, rfl, rfl⟩

/-- Witness for `fallback_plan_two_steps` on a concrete empty test case. -/
theorem fallback_plan_two_steps_witness :
    emptyCase.steps = [] ∧
    (parse_test_steps emptyCase = fallback_steps emptyCase.name ∧
      (parse_test_steps emptyCase).length = 2 ∧
      (parse_test_steps emptyCase).map (fun s => (s.step_number, s.step_type)) =
        [(1, StepType.navigate), (2, StepType.screenshot)]) :=
  ⟨rfl, fallback_plan_two_steps emptyCase rfl⟩

/-- C7: `queue_test_execution` on a test-case id that is not in the store
returns the `Test case ... not found` error synchronously and leaves the
orchestrator state unchanged — nothing is added to `active_executions` and
nothing is placed on the execution queue. -/
theorem queue_unknown_test_case_error (store : String → Option DBTestCase)
    (st : OrchState) (execution_id test_case_id : String) (user_id : Option String)
    (h : store test_case_id = none) :
    queue_test_execution store st execution_id test_case_id user_id =
      (Except.error ("Test case " ++ test_case_id ++ " not found"), st) := by
  simp [queue_test_execution, h]

/-- Witness for `queue_unknown_test_case_error` on the empty store. -/
theorem queue_unknown_test_case_error_witness :
    emptyStore ("missing") = none ∧
    queue_test_execution emptyStore {} ("e1") ("missing") none =
      (Except.error ("Test case " ++ "missing" ++ " not found"), ({} : OrchState)) :=
  ⟨rfl, queue_unknown_test_case_error emptyStore {} ("e1") ("missing") none rfl⟩

/-- C3: `cancel_execution` returns `false` when the execution id is unknown
or the execution is already terminal, and `true` otherwise; calling it twice
in a row on the same non-terminal execution returns `true` then `false`
(the first call removes the context from the active set). -/
theorem cancel_execution_returns (st : OrchState) (execution_id : String)
    (now now2 : Nat) :
    (lookupExec st.active_executions execution_id = none →
      cancel_execution st execution_id now = (false, st)) ∧
    (∀ context, lookupExec st.active_executions execution_id = some context →
      context.status.isTerminal = true →
      cancel_execution st execution_id now = (false, st)) ∧
    (∀ context, lookupExec st.active_executions execution_id = some context →
      context.status.isTerminal = false →
      (cancel_execution st execution_id now).1 = true ∧
      (cancel_execution (cancel_execution st execution_id now).2
        execution_id now2).1 = false) := by
  refine ⟨?_, ?_, ?_⟩
  · intro h
    exact cancel_execution_unknown st execution_id now h
  · intro c h ht
    exact cancel_execution_of_terminal st execution_id now c h ht
  · intro c h ht
    obtain ⟨h1, h2⟩ := cancel_execution_live st execution_id now c h ht
    refine ⟨h1, ?_⟩
    have h3 : lookupExec (cancel_execution st execution_id now).2.active_executions
        execution_id = none := by
      rw [h2]; exact lookupExec_eraseExec _ _
    rw [cancel_execution_unknown _ execution_id now2 h3]

/-- Witness for `cancel_execution_returns`: cancelling a queued execution
succeeds once and fails the second time. -/
theorem cancel_execution_returns_witness :
    (cancel_execution orchOne ("exec-1") 0).1 = true ∧
    (cancel_execution (cancel_execution orchOne ("exec-1") 0).2 ("exec-1") 0).1 =
      false :=
  (cancel_execution_returns orchOne ("exec-1") 0 0).2.2
    { execution_id := "exec-1", test_case_id := "tc-1" } (by decide) (by decide)

/-- C9: a stored step whose `step_type` is not one of the six recognized
kinds is not rejected: derivation still produces one plan step per stored
step, and the unrecognized step is mapped to a Screenshot step that is
included in the plan. -/
theorem unrecognized_step_type_screenshot (tc : DBTestCase) (db : DBTestStep)
    (hmem : db ∈ tc.steps) (hur : step_type_mapping db.step_type = none) :
    (parse_test_steps tc).length = tc.steps.length ∧
    ∃ s ∈ parse_test_steps tc,
      s = convert_db_step db ∧ s.step_number = db.order_index ∧
      s.step_type = StepType.screenshot := by
  have hne : tc.steps ≠ [] := by
    intro h
    rw [h] at hmem
    cases hmem
  have hp : parse_test_steps tc = (sortSteps tc.steps).map convert_db_step := by
    cases h : tc.steps with
    | nil => exact absurd h hne
    | cons a l => simp [parse_test_steps, h]
  refine ⟨?_, ?_⟩
  · rw [hp, List.length_map, length_sortSteps]
  · refine ⟨convert_db_step db, ?_, rfl, ?_, ?_⟩
    · rw [hp]
      exact List.mem_map_of_mem _ ((mem_sortSteps db tc.steps).mpr hmem)
    · rfl
    · simp [convert_db_step, hur]

/-- Witness for `unrecognized_step_type_screenshot` on a stored `custom`
step. -/
theorem unrecognized_step_type_screenshot_witness :
    (customStep ∈ customCase.steps ∧
      step_type_mapping customStep.step_type = none) ∧
    ((parse_test_steps customCase).length = customCase.steps.length ∧
      ∃ s ∈ parse_test_steps customCase,
        s = convert_db_step customStep ∧ s.step_number = customStep.order_index ∧
        s.step_type = StepType.screenshot) :=
  ⟨⟨by decide, by decide⟩,
    unrecognized_step_type_screenshot customCase customStep (by decide) (by decide)⟩

/-! ### Worker-loop lemmas for runs without concurrent cancellation -/

theorem cancelPt_nil (cfg : RunCfg) (h : cfg.sched = []) (p : AwaitPoint)
    (s : GState) : cancelPt cfg p s = s := by
  simp [cancelPt, h]

theorem finallyBlock_in_active (s : GState) :
    (finallyBlock s).in_active = s.in_active := by
  cases h : s.ctx.session_id <;> simp [finallyBlock, h]

theorem finallyBlock_status (s : GState) :
    (finallyBlock s).ctx.status = s.ctx.status := by
  cases h : s.ctx.session_id <;> simp [finallyBlock, h]

theorem finallyBlock_cleanup (s : GState) :
    (finallyBlock s).cleanup_scheduled = true := by
  cases h : s.ctx.session_id <;> simp [finallyBlock, h]

theorem envCancel_of_terminal (now : Nat) (s : GState)
    (h : s.ctx.status.isTerminal = true) : envCancel now s = s := by
  unfold envCancel
  by_cases h1 : s.in_active = false
  · rw [if_pos h1]
  · rw [if_neg h1, if_pos h]

theorem cancelPt_of_terminal (cfg : RunCfg) (p : AwaitPoint) (s : GState)
    (h : s.ctx.status.isTerminal = true) : cancelPt cfg p s = s := by
  unfold cancelPt
  split
  · exact envCancel_of_terminal cfg.now s h
  · rfl

theorem runSteps_nil (cfg : RunCfg) (total idx : Nat) (s : GState) :
    runSteps cfg total [] idx s = (s, true) := rfl

theorem runSteps_cons_cancelled (cfg : RunCfg) (total : Nat) (step : TestStep)
    (rest : List TestStep) (idx : Nat) (s : GState)
    (h : s.ctx.status = ExecutionStatus.cancelled) :
    runSteps cfg total (step :: rest) idx s =
      ({ s with ctx := { s.ctx with current_step := idx + 1 } }, false) := by
  simp [runSteps, h]

theorem runSteps_cons_live (cfg : RunCfg) (total : Nat) (step : TestStep)
    (rest : List TestStep) (idx : Nat) (s : GState)
    (h : ¬ s.ctx.status = ExecutionStatus.cancelled) :
    runSteps cfg total (step :: rest) idx s =
      (if (cfg.step_outcome (idx + 1)).success then
        runSteps cfg total rest (idx + 1)
          (stepBody cfg total step (idx + 1)
            { s with ctx := { s.ctx with current_step := idx + 1 } })
      else
        (stepFailExit cfg (idx + 1)
          (stepBody cfg total step (idx + 1)
            { s with ctx := { s.ctx with current_step := idx + 1 } }), false)) := by
  simp [runSteps, h]

theorem stepFailExit_status (cfg : RunCfg) (k : Nat) (s : GState) :
    (stepFailExit cfg k s).ctx.status = ExecutionStatus.failed ∧
    (stepFailExit cfg k s).in_active = s.in_active ∧
    (stepFailExit cfg k s).status_log =
      s.status_log ++ [ExecutionStatus.failed] := by
  unfold stepFailExit
  rw [cancelPt_of_terminal cfg _ _ (by rfl)]
  simp [writeStatus, emit]

theorem stepBody_nosched (cfg : RunCfg) (h : cfg.sched = []) (total : Nat)
    (step : TestStep) (k : Nat) (s : GState) :
    (stepBody cfg total step k s).ctx.status = s.ctx.status ∧
    (stepBody cfg total step k s).in_active = s.in_active := by
  simp [stepBody, cancelPt_nil cfg h, emit, applyStepOutcome]

theorem runSteps_nosched (cfg : RunCfg) (h : cfg.sched = []) (total : Nat) :
    ∀ (steps : List TestStep) (idx : Nat) (s : GState),
      s.ctx.status = ExecutionStatus.running →
      ((runSteps cfg total steps idx s).2 = true →
        (runSteps cfg total steps idx s).1.ctx.status = ExecutionStatus.running) ∧
      ((runSteps cfg total steps idx s).2 = false →
        (runSteps cfg total steps idx s).1.ctx.status = ExecutionStatus.failed) ∧
      (runSteps cfg total steps idx s).1.in_active = s.in_active := by
  intro steps
  induction steps with
  | nil =>
    intro idx s hs
    rw [runSteps_nil]
    refine ⟨fun _ => hs, fun hf => ?_, rfl⟩
    simp at hf
  | cons step rest ih =>
    intro idx s hs
    have hne : ¬ s.ctx.status = ExecutionStatus.cancelled := by
      intro hc
      rw [hs] at hc
      cases hc
    rw [runSteps_cons_live cfg total step rest idx s hne]
    obtain ⟨hb1, hb2⟩ := stepBody_nosched cfg h total step (idx + 1)
      { s with ctx := { s.ctx with current_step := idx + 1 } }
    cases ho : (cfg.step_outcome (idx + 1)).success with
    | true =>
      simp only [ho, if_true]
      have hs2 : (stepBody cfg total step (idx + 1)
          { s with ctx := { s.ctx with current_step := idx + 1 } }).ctx.status =
          ExecutionStatus.running := hb1.trans hs
      obtain ⟨i1, i2, i3⟩ := ih (idx + 1) _ hs2
      exact ⟨i1, i2, i3.trans (hb2.trans rfl)⟩
    | false =>
      simp only [ho, if_false, Bool.false_eq_true]
      obtain ⟨f1, f2, _⟩ := stepFailExit_status cfg (idx + 1)
        (stepBody cfg total step (idx + 1)
          { s with ctx := { s.ctx with current_step := idx + 1 } })
      refine ⟨fun ht => ?_, fun _ => f1, f2.trans (hb2.trans rfl)⟩
      simp at ht

theorem afterSteps_nosched (cfg : RunCfg) (h : cfg.sched = []) (total : Nat)
    (p : GState × Bool)
    (hT : p.2 = true → p.1.ctx.status = ExecutionStatus.running)
    (hF : p.2 = false → p.1.ctx.status = ExecutionStatus.failed) :
    (afterSteps cfg total p).in_active = p.1.in_active ∧
    (afterSteps cfg total p).cleanup_scheduled = true ∧
    (afterSteps cfg total p).ctx.status.isWorkerFinal = true := by
  have hcp := cancelPt_nil cfg h
  cases h2 : p.2 with
  | true =>
    simp only [afterSteps, h2, if_true, hcp, writeStatus, emit]
    refine ⟨finallyBlock_in_active _, finallyBlock_cleanup _, ?_⟩
    rw [finallyBlock_status]
    rfl
  | false =>
    simp only [afterSteps, h2, Bool.false_eq_true, if_false]
    refine ⟨finallyBlock_in_active _, finallyBlock_cleanup _, ?_⟩
    rw [finallyBlock_status, hF h2]
    rfl

theorem run_after_nosched (cfg : RunCfg) (h : cfg.sched = []) (total : Nat)
    (steps : List TestStep) (idx : Nat) (s0 : GState)
    (hs : s0.ctx.status = ExecutionStatus.running) :
    (afterSteps cfg total (runSteps cfg total steps idx s0)).in_active =
      s0.in_active ∧
    (afterSteps cfg total (runSteps cfg total steps idx s0)).cleanup_scheduled =
      true ∧
    (afterSteps cfg total
      (runSteps cfg total steps idx s0)).ctx.status.isWorkerFinal = true := by
  obtain ⟨hT, hF, hA⟩ := runSteps_nosched cfg h total steps idx s0 hs
  obtain ⟨a1, a2, a3⟩ := afterSteps_nosched cfg h total _ hT hF
  exact ⟨a1.trans hA, a2, a3⟩

theorem runningStart_props (cfg : RunCfg) (s : GState) :
    (runningStart cfg s).ctx.status = ExecutionStatus.running ∧
    (runningStart cfg s).in_active = s.in_active ∧
    (runningStart cfg s).status_log =
      s.status_log ++ [ExecutionStatus.running] ∧
    (runningStart cfg s).ctx.session_id = s.ctx.session_id := by
  simp [runningStart, writeStatus]

theorem failStart_props (cfg : RunCfg) (msg : String) (s : GState) :
    (failStart cfg msg s).ctx.status = ExecutionStatus.failed ∧
    (failStart cfg msg s).in_active = s.in_active ∧
    (failStart cfg msg s).status_log =
      s.status_log ++ [ExecutionStatus.failed] ∧
    (failStart cfg msg s).ctx.session_id = s.ctx.session_id := by
  unfold failStart
  rw [cancelPt_of_terminal cfg _ _ (by rfl)]
  simp [writeStatus, emit]

theorem sessionStart_nosched (cfg : RunCfg) (h : cfg.sched = []) (sid : String)
    (s : GState) :
    (sessionStart cfg sid s).ctx.status = s.ctx.status ∧
    (sessionStart cfg sid s).in_active = s.in_active ∧
    (sessionStart cfg sid s).status_log = s.status_log ∧
    (sessionStart cfg sid s).ctx.session_id = some sid := by
  simp [sessionStart, cancelPt_nil cfg h, emit]

theorem execute_test_nosched (cfg : RunCfg) (h : cfg.sched = []) (s : GState) :
    (execute_test cfg s).in_active = s.in_active ∧
    (execute_test cfg s).cleanup_scheduled = true ∧
    (execute_test cfg s).ctx.status.isWorkerFinal = true := by
  obtain ⟨r1, r2, _, _⟩ := runningStart_props cfg s
  cases hc : cfg.create_session with
  | error msg =>
    obtain ⟨f1, f2, _, _⟩ := failStart_props cfg msg (runningStart cfg s)
    have he : execute_test cfg s =
        finallyBlock (failStart cfg msg (runningStart cfg s)) := by
      simp only [execute_test, hc]
    rw [he]
    refine ⟨?_, finallyBlock_cleanup _, ?_⟩
    · rw [finallyBlock_in_active, f2, r2]
    · rw [finallyBlock_status, f1]
      rfl
  | ok sid =>
    obtain ⟨q1, q2, _, _⟩ :=
      sessionStart_nosched cfg h sid (runningStart cfg s)
    have he : execute_test cfg s =
        afterSteps cfg (sessionStart cfg sid (runningStart cfg s)).ctx.steps.length
          (runSteps cfg
            (sessionStart cfg sid (runningStart cfg s)).ctx.steps.length
            (sessionStart cfg sid (runningStart cfg s)).ctx.steps 0
            (sessionStart cfg sid (runningStart cfg s))) := by
      simp only [execute_test, hc]
    rw [he]
    obtain ⟨a1, a2, a3⟩ := run_after_nosched cfg h _ _ 0 _ (q1.trans r1)
    exact ⟨a1.trans (q2.trans r2), a2, a3⟩

/-- C10: whenever `cancel_execution` returns `true`, `get_execution_status`
on that execution id immediately answers `None` (the unknown-execution
answer) — `cancel_execution` removes the context from the active set at
once — whereas an execution finalized by the worker loop itself stays in
the active set with the delayed cleanup scheduled and a Completed/Failed
status: the post-terminal grace period applies only to worker-finalized
executions. -/
theorem cancel_then_status_none :
    (∀ (st : OrchState) (execution_id : String) (now : Nat),
      (cancel_execution st execution_id now).1 = true →
      get_execution_status (cancel_execution st execution_id now).2
        execution_id = none) ∧
    (∀ (cfg : RunCfg) (execution_id test_case_id : String)
        (steps : List TestStep) (user_id : Option String) (pool0 : List String),
      cfg.sched = [] →
      (run_execution cfg
        (initialGState execution_id test_case_id steps user_id pool0)).in_active =
          true ∧
      (run_execution cfg
        (initialGState execution_id test_case_id steps user_id
          pool0)).cleanup_scheduled = true ∧
      (run_execution cfg
        (initialGState execution_id test_case_id steps user_id
          pool0)).ctx.status.isWorkerFinal = true) := by
  constructor
  · intro st execution_id now htrue
    cases hl : lookupExec st.active_executions execution_id with
    | none =>
      rw [cancel_execution_unknown st execution_id now hl] at htrue
      simp at htrue
    | some c =>
      cases ht : c.status.isTerminal with
      | true =>
        rw [cancel_execution_of_terminal st execution_id now c hl ht] at htrue
        simp at htrue
      | false =>
        have h2 := (cancel_execution_live st execution_id now c hl ht).2
        have h3 : lookupExec
            (cancel_execution st execution_id now).2.active_executions
            execution_id = none := by
          rw [h2]
          exact lookupExec_eraseExec _ _
        simp [get_execution_status, h3]
  · intro cfg execution_id test_case_id steps user_id pool0 hs
    have hcp := cancelPt_nil cfg hs
    have h0 : run_execution cfg
        (initialGState execution_id test_case_id steps user_id pool0) =
        execute_test cfg
          (initialGState execution_id test_case_id steps user_id pool0) := by
      unfold run_execution
      rw [hcp]
      rfl
    rw [h0]
    obtain ⟨e1, e2, e3⟩ := execute_test_nosched cfg hs
      (initialGState execution_id test_case_id steps user_id pool0)
    exact ⟨e1, e2, e3⟩

/-- Witness for `cancel_then_status_none`: cancelling the queued execution
makes its status unknown at once, while an uncancelled run of the one-step
plan stays pollable (active, cleanup scheduled, worker-final status). -/
theorem cancel_then_status_none_witness :
    ((cancel_execution orchOne ("exec-1") 0).1 = true ∧
      get_execution_status (cancel_execution orchOne ("exec-1") 0).2
        ("exec-1") = none) ∧
    (cfgNoCancel.sched = [] ∧
      (run_execution cfgNoCancel queuedState).in_active = true ∧
      (run_execution cfgNoCancel queuedState).cleanup_scheduled = true ∧
      (run_execution cfgNoCancel queuedState).ctx.status.isWorkerFinal = true) :=
  ⟨⟨by decide, cancel_then_status_none.1 orchOne ("exec-1") 0 (by decide)⟩,
    ⟨rfl, cancel_then_status_none.2 cfgNoCancel ("exec-1") ("tc-1") [demoStep]
      none [] rfl⟩⟩

/-! ### Status-log invariants: Completed/Failed are sticky -/

theorem goodSt_of_eq {s t : GState} (hg : GoodSt s)
    (hl : t.status_log = s.status_log) (hs : t.ctx.status = s.ctx.status) :
    GoodSt t := by
  constructor
  · rw [hl]
    exact hg.1
  · rw [hs]
    exact hg.2

theorem cancelPt_completed (cfg : RunCfg) (p : AwaitPoint) (s : GState)
    (h : s.ctx.status = ExecutionStatus.completed) : cancelPt cfg p s = s :=
  cancelPt_of_terminal cfg p s (by rw [h]; rfl)

theorem envCancel_in_active_false (now : Nat) (s : GState)
    (h1 : ¬ s.in_active = true) : envCancel now s = s := by
  have h2 : s.in_active = false := by
    revert h1
    cases s.in_active <;> simp
  unfold envCancel
  rw [if_pos h2]

theorem envCancel_live (now : Nat) (s : GState) (h1 : s.in_active = true)
    (h2 : s.ctx.status.isTerminal = false) :
    (envCancel now s).status_log =
      s.status_log ++ [ExecutionStatus.cancelled] ∧
    (envCancel now s).ctx.status = ExecutionStatus.cancelled ∧
    (envCancel now s).ctx.session_id = s.ctx.session_id ∧
    (envCancel now s).in_active = false := by
  unfold envCancel
  rw [if_neg (by simp [h1]), if_neg (by simp [h2])]
  cases hsid : s.ctx.session_id <;> simp [writeStatus, emit, hsid]

theorem envCancel_good (now : Nat) (s : GState) (hg : GoodSt s) :
    GoodSt (envCancel now s) := by
  by_cases h1 : s.in_active = true
  · by_cases h2 : s.ctx.status.isTerminal = true
    · rw [envCancel_of_terminal now s h2]
      exact hg
    · have h2' : s.ctx.status.isTerminal = false := by
        revert h2
        cases s.ctx.status.isTerminal <;> simp
      obtain ⟨e1, e2, _, _⟩ := envCancel_live now s h1 h2'
      constructor
      · rw [e1]
        intro c hc
        rcases List.mem_append.mp hc with hmem | hmem
        · exact hg.1 c hmem
        · simp at hmem
          subst hmem
          rfl
      · rw [e2]
        rfl
  · rw [envCancel_in_active_false now s h1]
    exact hg

theorem cancelPt_good (cfg : RunCfg) (p : AwaitPoint) (s : GState)
    (hg : GoodSt s) : GoodSt (cancelPt cfg p s) := by
  unfold cancelPt
  split
  · exact envCancel_good cfg.now s hg
  · exact hg

theorem writeStatus_good (st : ExecutionStatus) (s : GState) (hg : GoodSt s)
    (hst : st.isWorkerFinal = false) : GoodSt (writeStatus st s) := by
  constructor
  · intro c hc
    simp only [writeStatus] at hc
    rcases List.mem_append.mp hc with hmem | hmem
    · exact hg.1 c hmem
    · simp at hmem
      subst hmem
      exact hst
  · simpa [writeStatus] using hst

theorem stepBody_good (cfg : RunCfg) (total : Nat) (step : TestStep) (k : Nat)
    (s : GState) (hg : GoodSt s) : GoodSt (stepBody cfg total step k s) := by
  unfold stepBody
  exact cancelPt_good _ _ _ (goodSt_of_eq (cancelPt_good _ _ _ hg) rfl rfl)

theorem stepFailExit_failedForm (cfg : RunCfg) (k : Nat) (s : GState)
    (hg : GoodSt s) : FailedForm (stepFailExit cfg k s) := by
  obtain ⟨f1, _, f3⟩ := stepFailExit_status cfg k s
  exact ⟨⟨s.status_log, hg.1, f3⟩, f1⟩

theorem runSteps_good (cfg : RunCfg) (total : Nat) :
    ∀ (steps : List TestStep) (idx : Nat) (s : GState), GoodSt s →
      ((runSteps cfg total steps idx s).2 = true →
        GoodSt (runSteps cfg total steps idx s).1) ∧
      ((runSteps cfg total steps idx s).2 = false →
        GoodSt (runSteps cfg total steps idx s).1 ∨
          FailedForm (runSteps cfg total steps idx s).1) := by
  intro steps
  induction steps with
  | nil =>
    intro idx s hg
    rw [runSteps_nil]
    refine ⟨fun _ => hg, fun hf => ?_⟩
    simp at hf
  | cons step rest ih =>
    intro idx s hg
    by_cases hcs : s.ctx.status = ExecutionStatus.cancelled
    · rw [runSteps_cons_cancelled cfg total step rest idx s hcs]
      refine ⟨fun ht => ?_, fun _ => Or.inl (goodSt_of_eq hg rfl rfl)⟩
      simp at ht
    · rw [runSteps_cons_live cfg total step rest idx s hcs]
      have hgb : GoodSt (stepBody cfg total step (idx + 1)
          { s with ctx := { s.ctx with current_step := idx + 1 } }) :=
        stepBody_good cfg total step (idx + 1) _ (goodSt_of_eq hg rfl rfl)
      cases ho : (cfg.step_outcome (idx + 1)).success with
      | true =>
        simp only [ho, if_true]
        exact ih (idx + 1) _ hgb
      | false =>
        simp only [ho, Bool.false_eq_true, if_false]
        refine ⟨fun ht => ?_,
          fun _ => Or.inr (stepFailExit_failedForm _ _ _ hgb)⟩
        simp at ht

theorem finallyBlock_log (s : GState) :
    (finallyBlock s).status_log = s.status_log := by
  cases h : s.ctx.session_id <;> simp [finallyBlock, h]

theorem afterSteps_good (cfg : RunCfg) (total : Nat) (p : GState × Bool)
    (hT : p.2 = true → GoodSt p.1)
    (hF : p.2 = false → GoodSt p.1 ∨ FailedForm p.1) :
    goodLog (afterSteps cfg total p).status_log := by
  cases h2 : p.2 with
  | true =>
    have hg := hT h2
    have hlog : (afterSteps cfg total p).status_log =
        p.1.status_log ++ [ExecutionStatus.completed] := by
      unfold afterSteps
      simp only [h2, if_true]
      rw [cancelPt_completed, finallyBlock_log]
      · simp [writeStatus, emit]
      · rfl
    exact ⟨p.1.status_log, hg.1,
      Or.inr ⟨ExecutionStatus.completed, rfl, hlog⟩⟩
  | false =>
    have hlog : (afterSteps cfg total p).status_log = p.1.status_log := by
      unfold afterSteps
      simp only [h2, Bool.false_eq_true, if_false]
      exact finallyBlock_log _
    rcases hF h2 with hg | hf
    · exact ⟨p.1.status_log, hg.1, Or.inl hlog⟩
    · obtain ⟨⟨l0, h0, hl⟩, _⟩ := hf
      exact ⟨l0, h0, Or.inr ⟨ExecutionStatus.failed, rfl, hlog.trans hl⟩⟩

theorem execute_test_goodLog (cfg : RunCfg) (s : GState) (hg : GoodSt s) :
    goodLog (execute_test cfg s).status_log := by
  obtain ⟨r1, _, r3, _⟩ := runningStart_props cfg s
  have hgr : GoodSt (runningStart cfg s) := by
    constructor
    · rw [r3]
      intro c hc
      rcases List.mem_append.mp hc with hmem | hmem
      · exact hg.1 c hmem
      · simp at hmem
        subst hmem
        rfl
    · rw [r1]
      rfl
  cases hc : cfg.create_session with
  | error msg =>
    obtain ⟨_, _, f3, _⟩ := failStart_props cfg msg (runningStart cfg s)
    have he : execute_test cfg s =
        finallyBlock (failStart cfg msg (runningStart cfg s)) := by
      simp only [execute_test, hc]
    rw [he, finallyBlock_log, f3]
    exact ⟨(runningStart cfg s).status_log, hgr.1,
      Or.inr ⟨ExecutionStatus.failed, rfl, rfl⟩⟩
  | ok sid =>
    have he : execute_test cfg s = afterSteps cfg
        (sessionStart cfg sid (runningStart cfg s)).ctx.steps.length
        (runSteps cfg
          (sessionStart cfg sid (runningStart cfg s)).ctx.steps.length
          (sessionStart cfg sid (runningStart cfg s)).ctx.steps 0
          (sessionStart cfg sid (runningStart cfg s))) := by
      simp only [execute_test, hc]
    rw [he]
    have hgq : GoodSt (sessionStart cfg sid (runningStart cfg s)) := by
      unfold sessionStart
      exact cancelPt_good _ _ _ (goodSt_of_eq hgr rfl rfl)
    obtain ⟨g1, g2⟩ := runSteps_good cfg _ _ 0 _ hgq
    exact afterSteps_good cfg _ _ g1 g2

theorem run_execution_goodLog (cfg : RunCfg) (s0 : GState) (hg : GoodSt s0) :
    goodLog (run_execution cfg s0).status_log := by
  unfold run_execution
  have hg1 : GoodSt (cancelPt cfg AwaitPoint.dequeue s0) :=
    cancelPt_good _ _ _ hg
  dsimp only
  split
  · exact execute_test_goodLog cfg _ hg1
  · exact ⟨(cancelPt cfg AwaitPoint.dequeue s0).status_log, hg1.1, Or.inl rfl⟩

theorem goodLog_sticky (l : List ExecutionStatus) (h : goodLog l) :
    stickyLog l := by
  obtain ⟨l0, h0, hc⟩ := h
  intro i j hi hj hij hcf
  cases hc with
  | inl he =>
    subst he
    have hmem := h0 _ (List.getElem_mem hi)
    rw [hmem] at hcf
    cases hcf
  | inr hex =>
    obtain ⟨c, hcw, he⟩ := hex
    subst he
    have hlen : (l0 ++ [c]).length = l0.length + 1 := by simp
    by_cases hi0 : i < l0.length
    · have hgl : (l0 ++ [c])[i] = l0[i] := List.getElem_append_left hi0
      rw [hgl] at hcf
      have hmem := h0 _ (List.getElem_mem hi0)
      rw [hmem] at hcf
      cases hcf
    · have hij2 : i = j := by
        rw [hlen] at hi hj
        omega
      subst hij2
      rfl

/-- C1 (amended): once an execution's status is written as `COMPLETED` or
`FAILED`, no later operation — worker loop, success transition, exception
handler, or `cancel_execution` — ever changes it again, and
`cancel_execution` is a no-op on every terminal context; a status of
`CANCELLED`, however, is not sticky (see the counterexample: a concurrent
cancel landing between a step's driver call and the worker's terminal
status write is overwritten to `COMPLETED`/`FAILED`). -/
theorem statusLog_worker_final_sticky (cfg : RunCfg)
    (execution_id test_case_id : String) (steps : List TestStep)
    (user_id : Option String) (pool0 : List String) :
    stickyLog (run_execution cfg
      (initialGState execution_id test_case_id steps user_id
        pool0)).status_log ∧
    (∀ (now : Nat) (s : GState), s.ctx.status.isTerminal = true →
      envCancel now s = s) := by
  constructor
  · apply goodLog_sticky
    apply run_execution_goodLog
    constructor
    · intro c hc
      simp [initialGState] at hc
      subst hc
      rfl
    · rfl
  · intro now s h
    exact envCancel_of_terminal now s h

/-- Witness for `statusLog_worker_final_sticky`: the uncancelled one-step
run, and a Completed context on which `envCancel` is a no-op. -/
theorem statusLog_worker_final_sticky_witness :
    stickyLog (run_execution cfgNoCancel queuedState).status_log ∧
    (doneState.ctx.status.isTerminal = true ∧
      envCancel 0 doneState = doneState) :=
  ⟨(statusLog_worker_final_sticky cfgNoCancel ("exec-1") ("tc-1") [demoStep]
      none []).1,
    ⟨by decide,
      (statusLog_worker_final_sticky cfgNoCancel ("exec-1") ("tc-1") [demoStep]
        none []).2 0 doneState (by decide)⟩⟩

/-- C1 counterexample: in the one-step run where the user's cancel lands
while the worker awaits the progress notification of the final step, the
context reaches status `CANCELLED` and the worker's all-steps-succeeded
transition then overwrites it to `COMPLETED` — the recorded status
sequence is queued, running, cancelled, completed.  This refutes "an
execution whose status is Cancelled is never later set to Completed or
Failed". -/
theorem cancelled_overwritten_to_completed :
    (run_execution cfgCancelAtLastProgress queuedState).status_log =
      [ExecutionStatus.queued, ExecutionStatus.running,
        ExecutionStatus.cancelled, ExecutionStatus.completed] ∧
    (run_execution cfgCancelAtLastProgress queuedState).ctx.status =
      ExecutionStatus.completed := by
  constructor <;> rfl

/-! ### Session release and the never-cleared `session_id` -/

theorem cancelPt_not_mem (cfg : RunCfg) (p : AwaitPoint) (s : GState)
    (h : p ∉ cfg.sched) : cancelPt cfg p s = s := by
  simp [cancelPt, h]

theorem envCancel_session_id (now : Nat) (s : GState) :
    (envCancel now s).ctx.session_id = s.ctx.session_id := by
  by_cases h1 : s.in_active = true
  · by_cases h2 : s.ctx.status.isTerminal = true
    · rw [envCancel_of_terminal now s h2]
    · have h2' : s.ctx.status.isTerminal = false := by
        revert h2
        cases s.ctx.status.isTerminal <;> simp
      exact (envCancel_live now s h1 h2').2.2.1
  · rw [envCancel_in_active_false now s h1]

theorem cancelPt_session_id (cfg : RunCfg) (p : AwaitPoint) (s : GState) :
    (cancelPt cfg p s).ctx.session_id = s.ctx.session_id := by
  unfold cancelPt
  split
  · exact envCancel_session_id _ _
  · rfl

theorem stepBody_session_id (cfg : RunCfg) (total : Nat) (step : TestStep)
    (k : Nat) (s : GState) :
    (stepBody cfg total step k s).ctx.session_id = s.ctx.session_id := by
  simp [stepBody, emit, applyStepOutcome, cancelPt_session_id]

theorem stepFailExit_session_id (cfg : RunCfg) (k : Nat) (s : GState) :
    (stepFailExit cfg k s).ctx.session_id = s.ctx.session_id := by
  unfold stepFailExit
  rw [cancelPt_of_terminal cfg _ _ (by rfl)]
  simp [writeStatus, emit]

theorem runSteps_session_id (cfg : RunCfg) (total : Nat) :
    ∀ (steps : List TestStep) (idx : Nat) (s : GState),
      (runSteps cfg total steps idx s).1.ctx.session_id =
        s.ctx.session_id := by
  intro steps
  induction steps with
  | nil =>
    intro idx s
    rw [runSteps_nil]
  | cons step rest ih =>
    intro idx s
    by_cases hcs : s.ctx.status = ExecutionStatus.cancelled
    · rw [runSteps_cons_cancelled cfg total step rest idx s hcs]
    · rw [runSteps_cons_live cfg total step rest idx s hcs]
      cases ho : (cfg.step_outcome (idx + 1)).success with
      | true =>
        simp only [ho, if_true]
        rw [ih, stepBody_session_id]
      | false =>
        simp only [ho, Bool.false_eq_true, if_false]
        rw [stepFailExit_session_id, stepBody_session_id]

theorem finallyBlock_session_id (s : GState) :
    (finallyBlock s).ctx.session_id = s.ctx.session_id := by
  cases h : s.ctx.session_id <;> simp [finallyBlock, h]

theorem afterSteps_session_id (cfg : RunCfg) (total : Nat) (p : GState × Bool) :
    (afterSteps cfg total p).ctx.session_id = p.1.ctx.session_id := by
  unfold afterSteps
  cases h2 : p.2 with
  | true =>
    simp only [h2, if_true]
    rw [finallyBlock_session_id, cancelPt_session_id]
    simp [writeStatus, emit]
  | false =>
    simp only [h2, Bool.false_eq_true, if_false]
    exact finallyBlock_session_id _

theorem not_mem_filter_ne (l : List String) (sid : String) :
    sid ∉ l.filter (fun x => !(x = sid : Bool)) := by
  simp [List.mem_filter]

theorem finallyBlock_not_mem (s : GState) (sid : String)
    (h : s.ctx.session_id = some sid) :
    sid ∉ (finallyBlock s).open_sessions := by
  have hpool : (finallyBlock s).open_sessions =
      s.open_sessions.filter (fun x => !(x = sid : Bool)) := by
    simp [finallyBlock, h]
  rw [hpool]
  exact not_mem_filter_ne _ _

theorem afterSteps_pool (cfg : RunCfg) (total : Nat) (p : GState × Bool)
    (sid : String) (h : p.1.ctx.session_id = some sid) :
    sid ∉ (afterSteps cfg total p).open_sessions := by
  unfold afterSteps
  cases h2 : p.2 with
  | true =>
    simp only [h2, if_true]
    apply finallyBlock_not_mem
    rw [cancelPt_session_id]
    exact h
  | false =>
    simp only [h2, Bool.false_eq_true, if_false]
    exact finallyBlock_not_mem p.1 sid h

theorem sessionStart_session_id (cfg : RunCfg) (sid : String) (s : GState) :
    (sessionStart cfg sid s).ctx.session_id = some sid := by
  simp [sessionStart, emit, cancelPt_session_id]

/-- C2 (amended): on every terminal path of an execution that acquires a
browser session — success, step failure, uncaught exception, and
cancellation interleaved at any await point after acquisition — the bound
session is closed back to the pool (its id is no longer among the open
sessions); but the context's `session_id` field is never cleared: it still
holds the released session's id after the run (see the counterexample for
the field-clearing part of the original claim). -/
theorem session_closed_but_id_not_cleared (cfg : RunCfg)
    (execution_id test_case_id : String) (steps : List TestStep)
    (user_id : Option String) (pool0 : List String) (sid : String)
    (hc : cfg.create_session = Except.ok sid)
    (hd : AwaitPoint.dequeue ∉ cfg.sched) :
    (run_execution cfg
      (initialGState execution_id test_case_id steps user_id
        pool0)).ctx.session_id = some sid ∧
    sid ∉ (run_execution cfg
      (initialGState execution_id test_case_id steps user_id
        pool0)).open_sessions := by
  have h0 : run_execution cfg
      (initialGState execution_id test_case_id steps user_id pool0) =
      execute_test cfg
        (initialGState execution_id test_case_id steps user_id pool0) := by
    unfold run_execution
    rw [cancelPt_not_mem cfg AwaitPoint.dequeue _ hd]
    dsimp only
    rw [if_pos]
    rfl
  have he : execute_test cfg
      (initialGState execution_id test_case_id steps user_id pool0) =
      afterSteps cfg
        (sessionStart cfg sid (runningStart cfg
          (initialGState execution_id test_case_id steps user_id
            pool0))).ctx.steps.length
        (runSteps cfg
          (sessionStart cfg sid (runningStart cfg
            (initialGState execution_id test_case_id steps user_id
              pool0))).ctx.steps.length
          (sessionStart cfg sid (runningStart cfg
            (initialGState execution_id test_case_id steps user_id
              pool0))).ctx.steps 0
          (sessionStart cfg sid (runningStart cfg
            (initialGState execution_id test_case_id steps user_id
              pool0)))) := by
    simp only [execute_test, hc]
  rw [h0, he]
  constructor
  · rw [afterSteps_session_id, runSteps_session_id, sessionStart_session_id]
  · apply afterSteps_pool
    rw [runSteps_session_id, sessionStart_session_id]

/-- Witness for `session_closed_but_id_not_cleared` on the uncancelled
one-step run. -/
theorem session_closed_but_id_not_cleared_witness :
    (cfgNoCancel.create_session = Except.ok ("sess-1") ∧
      AwaitPoint.dequeue ∉ cfgNoCancel.sched) ∧
    ((run_execution cfgNoCancel queuedState).ctx.session_id =
        some ("sess-1") ∧
      ("sess-1") ∉ (run_execution cfgNoCancel queuedState).open_sessions) :=
  ⟨⟨rfl, by decide⟩,
    session_closed_but_id_not_cleared cfgNoCancel ("exec-1") ("tc-1")
      [demoStep] none [] ("sess-1") rfl (by decide)⟩

/-- C2 counterexample: after the uncancelled one-step run reaches its
terminal state (`COMPLETED`) the session has been released (no open
sessions remain), yet the context's `session_id` is still `some "sess-1"`,
not cleared back to absent — neither `_execute_test`'s `finally` block nor
`cancel_execution` ever assigns `session_id = None`. -/
theorem session_id_not_cleared_cex :
    (run_execution cfgNoCancel queuedState).ctx.status =
      ExecutionStatus.completed ∧
    ¬ (run_execution cfgNoCancel queuedState).ctx.session_id = none ∧
    (run_execution cfgNoCancel queuedState).ctx.session_id =
      some ("sess-1") ∧
    (run_execution cfgNoCancel queuedState).open_sessions = [] := by
  decide

/-! ### WebDriver pool: screenshots and failure results -/

theorem findSession_updateSession (l : List WebDriverSession) (sid : String)
    (f : WebDriverSession → WebDriverSession)
    (hf : ∀ x, (f x).session_id = x.session_id) (sess : WebDriverSession)
    (h : findSession l sid = some sess) :
    findSession (updateSession l sid f) sid = some (f sess) := by
  induction l with
  | nil => exact absurd h (by simp [findSession])
  | cons a rest ih =>
    by_cases ha : a.session_id = sid
    · have h2 : sess = a := by
        simp [findSession, ha] at h
        exact h.symm
      subst h2
      simp [updateSession, findSession, ha, hf]
    · simp only [findSession, ha, if_false] at h
      simp only [updateSession, List.map_cons, ha, if_false, findSession, hf]
      exact ih h

theorem take_screenshot_spec (sessions : List WebDriverSession)
    (sid tag ts : String) (ok : Bool) (sess : WebDriverSession)
    (h : findSession sessions sid = some sess) :
    take_screenshot sessions sid tag ts ok =
      ((if ok then
          some (fullScreenshotPath sid (sess.screenshot_count + 1) tag ts)
        else none),
        updateSession sessions sid
          (fun s => { s with screenshot_count := s.screenshot_count + 1 })) := by
  cases ok <;> simp [take_screenshot, h]

theorem take_screenshot_count (sessions : List WebDriverSession)
    (sid tag ts : String) (ok : Bool) (sess : WebDriverSession)
    (h : findSession sessions sid = some sess) :
    findSession (take_screenshot sessions sid tag ts ok).2 sid =
      some { sess with screenshot_count := sess.screenshot_count + 1 } := by
  rw [take_screenshot_spec sessions sid tag ts ok sess h]
  exact findSession_updateSession sessions sid
    (fun x => { x with screenshot_count := x.screenshot_count + 1 })
    (fun x => rfl) sess h

/-- C4 (amended): every driver-level operational failure is returned as a
structured result with `success = false` and the failure message, never as
an exception across the pool boundary; element-interaction failures
(element-wait timeout, element not interactable) additionally carry a
best-effort screenshot attempt (the per-session counter is bumped and, when
the save succeeds, the path is attached) — but navigation failures
(page-load timeout, WebDriver error, other errors) return the structured
failure with *no* screenshot and the pool state untouched (see the
counterexample for the original claim's "including the navigation-timeout
case"). -/
theorem driver_failure_structured_results (sessions : List WebDriverSession)
    (sess : WebDriverSession)
    (sid selector selector_type action url : String)
    (text_input : Option String) (timeout : Nat)
    (msg elem_text attr_value : String) (execution_time_ms now : Nat)
    (ts : String) (save_ok : Bool) (actOut : ActionOutcome)
    (hs : findSession sessions sid = some sess)
    (hst : selector_type ∈ validSelectorTypes)
    (ha : action ∈ supportedActions)
    (hti : ¬ (action = "input" ∧ text_input = none)) :
    (find_element_and_interact sessions sid selector selector_type action
        text_input timeout WaitOutcome.timeout actOut elem_text attr_value
        execution_time_ms now ts save_ok =
      ({ success := false
         message := "Element not found or not interactable within " ++
           toString timeout ++ " seconds: " ++ selector
         element_found := false
         screenshot_path :=
           if save_ok then
             some (fullScreenshotPath sid (sess.screenshot_count + 1)
               ("timeout_error") ts)
           else none },
        updateSession sessions sid
          (fun x => { x with screenshot_count := x.screenshot_count + 1 }))) ∧
    (find_element_and_interact sessions sid selector selector_type action
        text_input timeout WaitOutcome.found ActionOutcome.notInteractable
        elem_text attr_value execution_time_ms now ts save_ok =
      ({ success := false
         message := "Element found but not interactable: " ++ selector
         element_found := true
         screenshot_path :=
           if save_ok then
             some (fullScreenshotPath sid (sess.screenshot_count + 1)
               ("not_interactable_error") ts)
           else none },
        updateSession sessions sid
          (fun x => { x with screenshot_count := x.screenshot_count + 1 }))) ∧
    (navigate_to_url sessions sid url timeout NavOutcome.timeout now ts
        save_ok =
      ({ success := false
         message := "Page load timeout after " ++ toString timeout ++
           " seconds" }, sessions)) ∧
    (navigate_to_url sessions sid url timeout (NavOutcome.webdriverError msg)
        now ts save_ok =
      ({ success := false
         message := "WebDriver error during navigation: " ++ msg },
        sessions)) ∧
    (navigate_to_url sessions sid url timeout (NavOutcome.otherError msg)
        now ts save_ok =
      ({ success := false, message := "Unexpected error: " ++ msg },
        sessions)) := by
  refine ⟨?_, ?_, ?_, ?_, ?_⟩
  · simp only [find_element_and_interact, hs]
    rw [if_neg (by simp [hst]),
      take_screenshot_spec sessions sid ("timeout_error") ts save_ok sess hs]
  · simp only [find_element_and_interact, hs]
    rw [if_neg (by simp [hst]), if_neg hti, if_neg (by simp [ha]),
      take_screenshot_spec sessions sid ("not_interactable_error") ts save_ok
        sess hs]
  · simp [navigate_to_url, hs]
  · simp [navigate_to_url, hs]
  · simp [navigate_to_url, hs]

/-- Witness for `driver_failure_structured_results`: a click on session
`s1` of the one-session pool, with a successful screenshot save. -/
theorem driver_failure_structured_results_witness :
    (findSession sessionsOne ("s1") = some { session_id := "s1" } ∧
      ("css") ∈ validSelectorTypes ∧ ("click") ∈ supportedActions ∧
      ¬ (("click") = "input" ∧ (none : Option String) = none)) ∧
    (find_element_and_interact sessionsOne ("s1") ("#go") ("css") ("click")
        none 10 WaitOutcome.timeout ActionOutcome.ok ("") ("") 0 0 ("ts")
        true =
      ({ success := false
         message := "Element not found or not interactable within " ++
           toString 10 ++ " seconds: " ++ "#go"
         element_found := false
         screenshot_path :=
           if true then
             some (fullScreenshotPath ("s1")
               (WebDriverSession.screenshot_count { session_id := "s1" } + 1)
               ("timeout_error") ("ts"))
           else none },
        updateSession sessionsOne ("s1")
          (fun x => { x with screenshot_count := x.screenshot_count + 1 }))) ∧
    (find_element_and_interact sessionsOne ("s1") ("#go") ("css") ("click")
        none 10 WaitOutcome.found ActionOutcome.notInteractable ("") ("") 0 0
        ("ts") true =
      ({ success := false
         message := "Element found but not interactable: " ++ "#go"
         element_found := true
         screenshot_path :=
           if true then
             some (fullScreenshotPath ("s1")
               (WebDriverSession.screenshot_count { session_id := "s1" } + 1)
               ("not_interactable_error") ("ts"))
           else none },
        updateSession sessionsOne ("s1")
          (fun x => { x with screenshot_count := x.screenshot_count + 1 }))) ∧
    (navigate_to_url sessionsOne ("s1") ("https://example.com") 10
        NavOutcome.timeout 0 ("ts") true =
      ({ success := false
         message := "Page load timeout after " ++ toString 10 ++ " seconds" },
        sessionsOne)) ∧
    (navigate_to_url sessionsOne ("s1") ("https://example.com") 10
        (NavOutcome.webdriverError ("boom")) 0 ("ts") true =
      ({ success := false
         message := "WebDriver error during navigation: " ++ "boom" },
        sessionsOne)) ∧
    (navigate_to_url sessionsOne ("s1") ("https://example.com") 10
        (NavOutcome.otherError ("boom")) 0 ("ts") true =
      ({ success := false, message := "Unexpected error: " ++ "boom" },
        sessionsOne)) :=
  ⟨⟨by decide, by decide, by decide, by decide⟩,
    driver_failure_structured_results sessionsOne { session_id := "s1" }
      ("s1") ("#go") ("css") ("click") ("https://example.com") none 10
      ("boom") ("") ("") 0 0 ("ts") true ActionOutcome.ok (by decide)
      (by decide) (by decide) (by decide)⟩

/-- C4 counterexample: a page-load timeout in `navigate_to_url` returns the
structured failure with `screenshot_path = None` and leaves the session
pool untouched — no screenshot is attempted (the per-session counter is
not bumped), refuting "every such failure result is always accompanied by
an attempted screenshot — including the navigation-timeout case". -/
theorem navigation_timeout_no_screenshot :
    (navigate_to_url sessionsOne ("s1") ("https://example.com") 30
      NavOutcome.timeout 0 ("ts") true).1.success = false ∧
    (navigate_to_url sessionsOne ("s1") ("https://example.com") 30
      NavOutcome.timeout 0 ("ts") true).1.message =
      "Page load timeout after 30 seconds" ∧
    (navigate_to_url sessionsOne ("s1") ("https://example.com") 30
      NavOutcome.timeout 0 ("ts") true).1.screenshot_path = none ∧
    (navigate_to_url sessionsOne ("s1") ("https://example.com") 30
      NavOutcome.timeout 0 ("ts") true).2 = sessionsOne := by
  decide

/-! ### Screenshot filenames: zero-padded decimal counters are injective -/

theorem digitChar_ne_underscore : ∀ d, d < 10 → digitChar d ≠ '_' := by
  decide

theorem charVal_digitChar : ∀ d, d < 10 → (digitChar d).toNat - 48 = d := by
  decide

theorem natDigits_ne_underscore : ∀ n, ∀ c ∈ natDigits n, c ≠ '_' := by
  intro n
  induction n using Nat.strong_induction_on with
  | _ n ih =>
    intro c hc
    rw [natDigits] at hc
    split at hc
    · rename_i h
      simp at hc
      subst hc
      exact digitChar_ne_underscore n h
    · rename_i h
      rw [List.mem_append] at hc
      rcases hc with hc | hc
      · exact ih (n / 10) (Nat.div_lt_self (by omega) (by omega)) c hc
      · simp at hc
        subst hc
        exact digitChar_ne_underscore (n % 10) (Nat.mod_lt n (by omega))

theorem digitsVal_append (l : List Char) (c : Char) :
    digitsVal (l ++ [c]) = 10 * digitsVal l + (c.toNat - 48) := by
  simp [digitsVal, List.foldl_append]

theorem digitsVal_natDigits : ∀ n, digitsVal (natDigits n) = n := by
  intro n
  induction n using Nat.strong_induction_on with
  | _ n ih =>
    rw [natDigits]
    split
    · rename_i h
      show 10 * 0 + ((digitChar n).toNat - 48) = n
      rw [charVal_digitChar n h]
      omega
    · rename_i h
      rw [digitsVal_append,
        ih (n / 10) (Nat.div_lt_self (by omega) (by omega)),
        charVal_digitChar (n % 10) (Nat.mod_lt n (by omega))]
      omega

theorem digitsVal_cons_zero (xs : List Char) :
    digitsVal (('0') :: xs) = digitsVal xs := rfl

theorem digitsVal_replicate (k : Nat) (l : List Char) :
    digitsVal (List.replicate k ('0') ++ l) = digitsVal l := by
  induction k with
  | zero => rfl
  | succ k ih =>
    rw [List.replicate_succ, List.cons_append, digitsVal_cons_zero]
    exact ih

theorem digitsVal_padChars (w : Nat) (l : List Char) :
    digitsVal (padChars w l) = digitsVal l :=
  digitsVal_replicate _ _

theorem pad3_inj (m n : Nat) (h : pad3 m = pad3 n) : m = n := by
  have hm : digitsVal (pad3 m) = m := by
    unfold pad3
    rw [digitsVal_padChars, digitsVal_natDigits]
  have hn : digitsVal (pad3 n) = n := by
    unfold pad3
    rw [digitsVal_padChars, digitsVal_natDigits]
  rw [← hm, ← hn, h]

theorem pad3_ne_underscore (n : Nat) : ∀ c ∈ pad3 n, c ≠ '_' := by
  intro c hc
  unfold pad3 padChars at hc
  rw [List.mem_append] at hc
  rcases hc with hc | hc
  · rw [List.mem_replicate] at hc
    rw [hc.2]
    decide
  · exact natDigits_ne_underscore n c hc

theorem append_sep_inj : ∀ (xs ys r1 r2 : List Char),
    (∀ c ∈ xs, c ≠ '_') → (∀ c ∈ ys, c ≠ '_') →
    xs ++ '_' :: r1 = ys ++ '_' :: r2 → xs = ys ∧ r1 = r2 := by
  intro xs
  induction xs with
  | nil =>
    intro ys r1 r2 _ hy h
    cases ys with
    | nil =>
      simp at h
      exact ⟨rfl, h⟩
    | cons y ys2 =>
      simp at h
      exact absurd h.1.symm (hy y (by simp))
  | cons x xs2 ih =>
    intro ys r1 r2 hx hy h
    cases ys with
    | nil =>
      simp at h
      exact absurd h.1 (hx x (by simp))
    | cons y ys2 =>
      simp at h
      obtain ⟨h1, h2⟩ := h
      obtain ⟨ha, hb⟩ := ih ys2 r1 r2 (fun c hc => hx c (by simp [hc]))
        (fun c hc => hy c (by simp [hc])) h2
      exact ⟨by rw [h1, ha], hb⟩

theorem str_data_append (a b : String) : (a ++ b).data = a.data ++ b.data :=
  rfl

theorem screenshotFilename_count_inj (sid : String) (c1 c2 : Nat)
    (t1 t2 s1 s2 : String)
    (h : screenshotFilename sid c1 t1 s1 = screenshotFilename sid c2 t2 s2) :
    c1 = c2 := by
  apply pad3_inj
  have hu : ("_" : String).data = ['_'] := rfl
  have hmk : ∀ l : List Char, (String.mk l).data = l := fun l => rfl
  have hd := congrArg String.data h
  simp only [screenshotFilename, str_data_append, hu, hmk,
    List.append_assoc, List.singleton_append] at hd
  have hd2 := List.append_cancel_left (List.append_cancel_left hd)
  injection hd2 with hd3 hd4
  exact (append_sep_inj _ _ _ _ (pad3_ne_underscore c1)
    (pad3_ne_underscore c2) hd4).1

theorem fullScreenshotPath_count_inj (sid : String) (c1 c2 : Nat)
    (t1 t2 s1 s2 : String)
    (h : fullScreenshotPath sid c1 t1 s1 = fullScreenshotPath sid c2 t2 s2) :
    c1 = c2 := by
  apply screenshotFilename_count_inj sid c1 c2 t1 t2 s1 s2
  have hd := congrArg String.data h
  simp only [fullScreenshotPath, str_data_append] at hd
  have hd2 := List.append_cancel_left hd
  exact String.ext hd2

theorem runCaptures_paths (sid : String) :
    ∀ (caps : List (String × String)) (sessions : List WebDriverSession)
      (sess : WebDriverSession), findSession sessions sid = some sess →
      (runCaptures sessions sid caps).1 =
        capturePaths sid sess.screenshot_count caps := by
  intro caps
  induction caps with
  | nil =>
    intro sessions sess h
    rfl
  | cons cap rest ih =>
    intro sessions sess h
    obtain ⟨tag, ts⟩ := cap
    have hupd := findSession_updateSession sessions sid
      (fun x => { x with screenshot_count := x.screenshot_count + 1 })
      (fun x => rfl) sess h
    simp only [runCaptures,
      take_screenshot_spec sessions sid tag ts true sess h, if_true]
    rw [ih (updateSession sessions sid
      (fun x => { x with screenshot_count := x.screenshot_count + 1 }))
      { sess with screenshot_count := sess.screenshot_count + 1 } hupd]
    rfl

theorem mem_capturePaths (sid : String) :
    ∀ (caps : List (String × String)) (c : Nat) (p : String),
      p ∈ capturePaths sid c caps →
      ∃ k tag ts, c < k ∧ p = fullScreenshotPath sid k tag ts := by
  intro caps
  induction caps with
  | nil =>
    intro c p hp
    simp [capturePaths] at hp
  | cons cap rest ih =>
    intro c p hp
    obtain ⟨tag, ts⟩ := cap
    simp only [capturePaths, List.mem_cons] at hp
    rcases hp with hp | hp
    · exact ⟨c + 1, tag, ts, by omega, hp⟩
    · obtain ⟨k, tg, t, hk, he⟩ := ih (c + 1) p hp
      exact ⟨k, tg, t, by omega, he⟩

theorem capturePaths_pairwise (sid : String) :
    ∀ (caps : List (String × String)) (c : Nat),
      List.Pairwise (fun a b => a ≠ b) (capturePaths sid c caps) := by
  intro caps
  induction caps with
  | nil =>
    intro c
    exact List.Pairwise.nil
  | cons cap rest ih =>
    intro c
    obtain ⟨tag, ts⟩ := cap
    refine List.Pairwise.cons ?_ (ih (c + 1))
    intro p hp heq
    obtain ⟨k, tg, t, hk, hep⟩ := mem_capturePaths sid rest (c + 1) p hp
    rw [hep] at heq
    have := fullScreenshotPath_count_inj sid (c + 1) k tag tg ts t heq
    omega

/-- C8: within one browser session the screenshot counter strictly
increases — every capture on a known session bumps it by exactly one — and
any run of successive captures (of any length, in particular 1000)
produces pairwise distinct file paths: the filename embeds the session id
and the zero-padded counter, and zero-padded decimal rendering is
injective, whatever the context tags and timestamps are. -/
theorem screenshot_counter_and_filenames (sessions : List WebDriverSession)
    (sess : WebDriverSession) (sid : String)
    (hs : findSession sessions sid = some sess) :
    (∀ tag ts ok,
      findSession (take_screenshot sessions sid tag ts ok).2 sid =
        some { sess with screenshot_count := sess.screenshot_count + 1 }) ∧
    (∀ caps, List.Pairwise (fun a b => a ≠ b)
      (runCaptures sessions sid caps).1) := by
  constructor
  · intro tag ts ok
    exact take_screenshot_count sessions sid tag ts ok sess hs
  · intro caps
    rw [runCaptures_paths sid caps sessions sess hs]
    exact capturePaths_pairwise sid caps sess.screenshot_count

/-- Witness for `screenshot_counter_and_filenames`: one capture bumps the
counter of session `s1` from 0 to 1, and three rapid captures with equal
tags and timestamps yield pairwise distinct paths. -/
theorem screenshot_counter_and_filenames_witness :
    findSession sessionsOne ("s1") = some { session_id := "s1" } ∧
    findSession (take_screenshot sessionsOne ("s1") ("a") ("t") true).2
      ("s1") = some { session_id := "s1", screenshot_count := 1 } ∧
    List.Pairwise (fun a b => a ≠ b)
      (runCaptures sessionsOne ("s1")
        [(("a"), ("t")), (("a"), ("t")), (("a"), ("t"))]).1 :=
  ⟨by decide,
    (screenshot_counter_and_filenames sessionsOne { session_id := "s1" }
      ("s1") (by decide)).1 ("a") ("t") true,
    (screenshot_counter_and_filenames sessionsOne { session_id := "s1" }
      ("s1") (by decide)).2 [(("a"), ("t")), (("a"), ("t")), (("a"), ("t"))]⟩

end JBTestSuite
